import Mathlib
/-!
Verification development for the AE3GIS network-lab orchestrator.

The definitions below are a shallow embedding of the backend sources:
  * `backend/services/clab_generator.py`  (topology compiler)
  * `backend/services/clab_manager.py`    (lab driver / management allocator)
  * `backend/routers/containerlab.py`     (PTY exec relay)
  * `backend/routers/proxy.py`            (reverse proxy)

Python dictionaries of the topology shape are embedded as structures with
`Option` fields (a missing key is `none`); dict values built by the code are
embedded as insertion-ordered association lists over `List (key × value)`
with Python dict-assignment semantics (overwriting keeps the original
position, new keys append at the end).  Machine strings are Lean `String`;
Python string formatting of integers is embedded by an explicit decimal
printer `pyStrInt`, and Python `int(...)` parsing by `pyIntOfChars`, so that
all round-trip facts used by the proofs are about definitions in this file.
-/
set_option autoImplicit false
namespace AE3GIS
/-! ## Python dict / truthiness primitives -/
/-- First-match lookup in an insertion-ordered association list
(Python `d[k]` / `d.get(k)`). -/
def getKey {κ : Type} {α : Type} [DecidableEq κ] (m : List (κ × α)) (k : κ) : Option α :=
  (m.find? (fun p => decide (p.1 = k))).map Prod.snd
/-- Python dict assignment `d[k] = v`: overwrite in place if the key is
present (keeping its position), otherwise append at the end.  All maps in
this development are built from `[]` through `setK`, so keys are never
duplicated and first-match replacement coincides with dict assignment. -/
def setK {κ : Type} {α : Type} [DecidableEq κ] : List (κ × α) → κ → α → List (κ × α)
  | [], k, v => [(k, v)]
  | p :: t, k, v => if p.1 = k then (k, v) :: t else p :: setK t k v
/-- Python `d.get(k, dflt)`. -/
def lookupD {κ : Type} {α : Type} [DecidableEq κ] (m : List (κ × α)) (k : κ) (d : α) : α :=
  (getKey m k).getD d
/-- Python set-like register: add a string to a per-key list if not present. -/
def addIface (m : List (String × List String)) (cid iface : String) :
    List (String × List String) :=
  let cur := lookupD m cid []
  if iface ∈ cur then m else setK m cid (cur ++ [iface])
/-- Python truthiness of an optional string: `None` and `""` are falsy. -/
def truthy (o : Option String) : Bool :=
  match o with
  | none => false
  | some s => decide (s ≠ "")
/-- Python `a or b` on two optional strings (falsy = `None` / `""`). -/
def pyOrOpt (a b : Option String) : Option String :=
  match a with
  | some s => if s ≠ "" then some s else b
  | none => b
/-- `o.getD ""`: the value Python's `d.get(k, "")` produces. -/
def pys (o : Option String) : String := o.getD ""

/-- Prefix test on character lists (kernel-reducible). -/
def startsWithL : List Char → List Char → Bool
  | [], _ => true
  | _ :: _, [] => false
  | p :: ps, c :: cs => p = c && startsWithL ps cs

/-- Fueled worker for Python `str.split(sep)` (`sep` nonempty; the fuel is
at least the input length, so it never runs out). -/
def pySplitGo (sep : List Char) : Nat → List Char → List Char → List (List Char)
  | _, [], cur => [cur.reverse]
  | 0, l, cur => [cur.reverse ++ l]
  | fuel + 1, c :: rest, cur =>
    if startsWithL sep (c :: rest) then
      cur.reverse :: pySplitGo sep fuel ((c :: rest).drop sep.length) []
    else pySplitGo sep fuel rest (c :: cur)

/-- Python `s.split(sep)` for a nonempty separator. -/
def pySplitOn (s sep : String) : List String :=
  (pySplitGo sep.data (s.data.length + 1) s.data []).map String.mk

/-- Python `sep.join(l)`. -/
def pyJoin (sep : String) : List String → String
  | [] => ""
  | x :: xs => xs.foldl (fun acc y => acc ++ sep ++ y) x
/-! ## Decimal digits: Python `str(int)` and `int(str)` -/
/-- The decimal digit character for `d < 10` (explicit cases for kernel
friendliness). -/
def digitChar (d : Nat) : Char :=
  if d = 0 then '0' else if d = 1 then '1' else if d = 2 then '2'
  else if d = 3 then '3' else if d = 4 then '4' else if d = 5 then '5'
  else if d = 6 then '6' else if d = 7 then '7' else if d = 8 then '8' else '9'
def isDigitChar (c : Char) : Bool :=
  c = '0' ∨ c = '1' ∨ c = '2' ∨ c = '3' ∨ c = '4' ∨ c = '5' ∨ c = '6' ∨
  c = '7' ∨ c = '8' ∨ c = '9'
def digitVal (c : Char) : Nat :=
  if c = '0' then 0 else if c = '1' then 1 else if c = '2' then 2
  else if c = '3' then 3 else if c = '4' then 4 else if c = '5' then 5
  else if c = '6' then 6 else if c = '7' then 7 else if c = '8' then 8 else 9
/-- Digits of `n`, most significant first, by fuel-structural recursion
(kernel-reducible, unlike well-founded recursion). -/
def natToCharsAux : Nat → Nat → List Char
  | 0, _ => []
  | fuel + 1, n =>
    if n = 0 then [] else natToCharsAux fuel (n / 10) ++ [digitChar (n % 10)]
/-- Python `str(n)` for `n : Nat`. -/
def natToChars (n : Nat) : List Char :=
  if n = 0 then ['0'] else natToCharsAux (n + 1) n
/-- Python `str(n)` for `n : Int` (embedding of f-string interpolation of an
integer). -/
def pyStrInt (n : Int) : String :=
  if n < 0 then String.mk ('-' :: natToChars n.natAbs)
  else String.mk (natToChars n.toNat)
/-- Python whitespace characters stripped by `int(str)`. -/
def isPyWs (c : Char) : Bool :=
  c = ' ' ∨ c = '\t' ∨ c = '\n' ∨ c = '\r' ∨ c = Char.ofNat 11 ∨ c = Char.ofNat 12
def stripWs (l : List Char) : List Char :=
  ((l.dropWhile isPyWs).reverse.dropWhile isPyWs).reverse
/-- Digit sequence with optional single underscores between digits, as
accepted by Python `int(str)` after the first digit. -/
def parseUDAux (acc : Nat) : List Char → Option Nat
  | [] => some acc
  | c :: rest =>
    if isDigitChar c then parseUDAux (acc * 10 + digitVal c) rest
    else if c = '_' then
      match rest with
      | [] => none
      | c2 :: rest2 =>
        if isDigitChar c2 then parseUDAux (acc * 10 + digitVal c2) rest2 else none
    else none
def parseUD : List Char → Option Nat
  | [] => none
  | c :: rest => if isDigitChar c then parseUDAux (digitVal c) rest else none
/-- Python `int(s)` on a character list: strip whitespace, optional sign,
digit sequence (underscore grouping allowed).  `none` models `ValueError`. -/
def pyIntOfChars (l : List Char) : Option Int :=
  match stripWs l with
  | [] => none
  | c :: rest =>
    if c = '-' then (parseUD rest).map (fun n => -(n : Int))
    else if c = '+' then (parseUD rest).map (fun n => (n : Int))
    else (parseUD (c :: rest)).map (fun n => (n : Int))
def pyIntOfString (s : String) : Option Int := pyIntOfChars s.data
/-- Hex digit value (`none` for a non-hex character). -/
def hexVal (c : Char) : Option Nat :=
  if isDigitChar c then some (digitVal c)
  else if c = 'a' ∨ c = 'A' then some 10
  else if c = 'b' ∨ c = 'B' then some 11
  else if c = 'c' ∨ c = 'C' then some 12
  else if c = 'd' ∨ c = 'D' then some 13
  else if c = 'e' ∨ c = 'E' then some 14
  else if c = 'f' ∨ c = 'F' then some 15
  else none
def parseHexAux (acc : Nat) : List Char → Option Nat
  | [] => some acc
  | c :: rest =>
    match hexVal c with
    | some d => parseHexAux (acc * 16 + d) rest
    | none =>
      if c = '_' then
        match rest with
        | [] => none
        | c2 :: rest2 =>
          match hexVal c2 with
          | some d2 => parseHexAux (acc * 16 + d2) rest2
          | none => none
      else none
def parseHex : List Char → Option Nat
  | [] => none
  | c :: rest =>
    match hexVal c with
    | some d => parseHexAux d rest
    | none => none
/-- Python `int(s, 16)`: strip, optional sign, optional `0x`/`0X` prefix,
hex digits (underscore grouping allowed). -/
def pyIntHexOfChars (l : List Char) : Option Int :=
  match stripWs l with
  | [] => none
  | c :: rest =>
    if c = '-' then (parseHexBody rest).map (fun n => -(n : Int))
    else if c = '+' then (parseHexBody rest).map (fun n => (n : Int))
    else (parseHexBody (c :: rest)).map (fun n => (n : Int))
where
  parseHexBody : List Char → Option Nat
  | '0' :: 'x' :: rest => parseHex rest
  | '0' :: 'X' :: rest => parseHex rest
  | l => parseHex l
def pyIntHexOfString (s : String) : Option Int := pyIntHexOfChars s.data
/-! ## Round-trip facts for the decimal printer -/
/-- Horner accumulator for a run of digit characters. -/
def foldAcc (acc : Nat) (l : List Char) : Nat :=
  l.foldl (fun a c => a * 10 + digitVal c) acc

/-! ## Topology compiler (`backend/services/clab_generator.py`) -/

namespace ClabGenerator

def _IMAGE_ROUTER : String := "frrouting/frr:latest"

def _IMAGE_SWITCH : String := "alpine:latest"

def _IMAGE_HOST : String := "alpine:latest"

def _ROUTER_TYPES : List String := ["router", "firewall"]

def _SWITCH_TYPES : List String := ["switch"]

def _image_for (ctype : String) : String :=
  if ctype ∈ _ROUTER_TYPES then _IMAGE_ROUTER
  else if ctype ∈ _SWITCH_TYPES then _IMAGE_SWITCH
  else _IMAGE_HOST

/-- Python `iface.replace("eth", "")`: remove every (non-overlapping,
left-to-right) occurrence of `"eth"`. -/
def pyReplaceEth : List Char → List Char
  | 'e' :: 't' :: 'h' :: rest => pyReplaceEth rest
  | c :: rest => c :: pyReplaceEth rest
  | [] => []

/-- `_eth_index`: numeric index of an interface name (`"eth1"` to `1`);
`int(...)` failure (`ValueError`) yields `0`. -/
def _eth_index (iface : String) : Int :=
  match pyIntOfChars (pyReplaceEth iface.data) with
  | some n => n
  | none => 0

/-- A container dict of the topology data.  `none` embeds a missing key;
fields the compiler never reads are omitted. -/
structure Container where
  id : Option String
  ctype : Option String
  ip : Option String
  deriving DecidableEq, Repr

/-- A connection dict.  `from_` / `to_` embed the `"from"` / `"to"` keys. -/
structure Connection where
  fromContainer : Option String
  toContainer : Option String
  from_ : Option String
  to_ : Option String
  fromInterface : Option String
  toInterface : Option String
  deriving DecidableEq, Repr

structure Subnet where
  id : Option String
  cidr : Option String
  gateway : Option String
  containers : List Container
  connections : List Connection
  deriving DecidableEq, Repr

structure Site where
  id : Option String
  subnets : List Subnet
  subnetConnections : List Connection
  deriving DecidableEq, Repr

structure TopologyData where
  name : Option String
  sites : List Site
  siteConnections : List Connection
  deriving DecidableEq, Repr

/-- The per-container record `container_info[cid]` built in Step 1. -/
structure CInfo where
  ctype : String
  ip : String
  subnet_cidr : String
  prefix_len : String
  gateway : String
  deriving DecidableEq, Repr

/-- The value of `container_info.get(cid, {})` when `cid` is absent: every
field produces the default that the corresponding Python `.get` would. -/
def defaultCInfo : CInfo := ⟨"", "", "", "24", ""⟩

def allContainers (t : TopologyData) : List Container :=
  t.sites.flatMap (fun site => site.subnets.flatMap (fun sn => sn.containers))

/-- `container_info[c["id"]]` raises `KeyError` when a container dict lacks
`"id"`.  Since the compiler is otherwise pure and total, the Python function
raises iff some container lacks an id; the raise is hoisted into the guard of
`generate_clab_yaml` below. -/
def hasMissingContainerId (t : TopologyData) : Bool :=
  (allContainers t).any (fun c => c.id.isNone)

/-- `cidr.split("/")[1] if "/" in cidr else "24"`. -/
def pfxOf (cidr : String) : String :=
  if cidr.data.any (fun c => decide (c = '/')) then (pySplitOn cidr "/").getD 1 "24" else "24"

/-- Auto-detected gateway: first router/firewall in the subnet with a truthy
ip (lines 83-87 of the source). -/
def autoGateway (containers : List Container) : String :=
  match containers.find? (fun c => decide (pys c.ctype ∈ _ROUTER_TYPES) && truthy c.ip) with
  | some c => pys c.ip
  | none => ""

/-- Step-1 metadata maps (`all_subnets` and `subnet_id_map` are written but
never read afterwards; they are kept for fidelity). -/
structure Meta where
  container_info : List (String × CInfo)
  all_subnets : List (String × (String × String))
  subnet_id_map : List (String × (String × String × String))
  subnet_id_containers : List (String × List Container)
  site_id_subnets : List (String × List Subnet)
  deriving Repr

def emptyMeta : Meta := ⟨[], [], [], [], []⟩

def step1Subnet (m : Meta) (subnet : Subnet) : Meta :=
  let sid := pys subnet.id
  let cidr := pys subnet.cidr
  let gateway0 := pys subnet.gateway
  let pfx := pfxOf cidr
  let containers := subnet.containers
  let gateway := if gateway0 = "" then autoGateway containers else gateway0
  let m := if cidr ≠ "" then
      { m with all_subnets := setK m.all_subnets cidr (gateway, pfx) } else m
  let m := if sid ≠ "" then
      { m with subnet_id_map := setK m.subnet_id_map sid (cidr, gateway, pfx),
               subnet_id_containers := setK m.subnet_id_containers sid containers } else m
  let ci := containers.foldl
    (fun ci c => setK ci (pys c.id) ⟨pys c.ctype, pys c.ip, cidr, pfx, gateway⟩)
    m.container_info
  { m with container_info := ci }

def step1Site (m : Meta) (site : Site) : Meta :=
  let site_id := pys site.id
  let m := if site_id ≠ "" then
      { m with site_id_subnets := setK m.site_id_subnets site_id site.subnets } else m
  site.subnets.foldl step1Subnet m

def step1 (t : TopologyData) : Meta := t.sites.foldl step1Site emptyMeta

/-- `_find_gateway_router`; `""` embeds the Python `None` result (both are
falsy at every use site). -/
def _find_gateway_router (container_info : List (String × CInfo))
    (containers : List Container) : String :=
  let acc := containers.foldl
    (fun (acc : String × String) c =>
      if decide (pys c.ctype ∈ _ROUTER_TYPES) && (getKey container_info (pys c.id)).isSome then
        let gw := ((getKey container_info (pys c.id)).getD defaultCInfo).gateway
        let best := if c.ip = some gw ∧ acc.1 = "" then pys c.id else acc.1
        let fallback := if acc.2 = "" then pys c.id else acc.2
        (best, fallback)
      else acc)
    ("", "")
  if acc.1 ≠ "" then acc.1 else acc.2

def gatewayRouterMap (m : Meta) : List (String × String) :=
  m.subnet_id_containers.foldl
    (fun acc p =>
      let gw := _find_gateway_router m.container_info p.2
      if gw ≠ "" then setK acc p.1 gw else acc)
    []

def siteGatewayRouterMap (m : Meta) : List (String × String) :=
  m.site_id_subnets.foldl
    (fun acc p =>
      match p.2.findSome? (fun sn =>
          let gw := _find_gateway_router m.container_info sn.containers
          if gw ≠ "" then some gw else none) with
      | some gw => setK acc p.1 gw
      | none => acc)
    []

structure Env where
  container_info : List (String × CInfo)
  gateway_router_map : List (String × String)
  site_gateway_router_map : List (String × String)
  deriving Repr

def mkEnv (t : TopologyData) : Env :=
  let m := step1 t
  ⟨m.container_info, gatewayRouterMap m, siteGatewayRouterMap m⟩

def _resolve_endpoint (env : Env) (raw_id : Option String) : Option String :=
  match raw_id with
  | none => none
  | some r =>
    if r = "" then none
    else if (getKey env.container_info r).isSome then some r
    else
      let g := lookupD env.gateway_router_map r ""
      if g ≠ "" then some g
      else getKey env.site_gateway_router_map r

/-- All connections in compiler walking order: for each site all intra-subnet
connections then the site's `subnetConnections`, finally the topology's
`siteConnections` (source lines 174-181 and 226-233 use this same order). -/
def allConnections (t : TopologyData) : List Connection :=
  (t.sites.flatMap (fun site =>
    site.subnets.flatMap (fun sn => sn.connections) ++ site.subnetConnections)) ++
  t.siteConnections

/-- Pass-1 state: `iface_counter` (defaultdict(int)) and `container_ifaces`
(defaultdict(set), embedded as an insertion-ordered deduplicated list). -/
structure GenState where
  iface_counter : List (String × Int)
  container_ifaces : List (String × List String)
  deriving Repr

def _prereg_side (st : GenState) (oid : Option String) (oifc : Option String) : GenState :=
  match oid with
  | some cid =>
    if cid ≠ "" ∧ truthy oifc then
      let ifc := pys oifc
      { iface_counter := setK st.iface_counter cid
          (max (lookupD st.iface_counter cid 0) (_eth_index ifc)),
        container_ifaces := addIface st.container_ifaces cid ifc }
    else st
  | none => st

def _preregister (env : Env) (st : GenState) (conn : Connection) : GenState :=
  let raw_from := pyOrOpt conn.fromContainer conn.from_
  let raw_to := pyOrOpt conn.toContainer conn.to_
  let from_id := pyOrOpt (_resolve_endpoint env raw_from) raw_from
  let to_id := pyOrOpt (_resolve_endpoint env raw_to) raw_to
  let st := _prereg_side st from_id conn.fromInterface
  _prereg_side st to_id conn.toInterface

def pass1 (env : Env) (t : TopologyData) : GenState :=
  (allConnections t).foldl (_preregister env) ⟨[], []⟩

structure RegEntry where
  from_id : String
  fi : String
  to_id : String
  ti : String
  deriving DecidableEq, Repr

/-- Pass-2 state.  `auto_log` is ghost instrumentation: it records every
interface produced by `_next_iface` (the auto-assignments), purely so that
theorems can quantify over them; no source behaviour depends on it. -/
structure LinkState where
  iface_counter : List (String × Int)
  container_ifaces : List (String × List String)
  links : List (List String)
  link_registry : List RegEntry
  auto_log : List (String × String)
  deriving Repr

def initLinkState (g : GenState) : LinkState := ⟨g.iface_counter, g.container_ifaces, [], [], []⟩

def _next_iface (st : LinkState) (cid : String) : LinkState × String :=
  let n := lookupD st.iface_counter cid 0 + 1
  let iface := "eth" ++ pyStrInt n
  ({ st with iface_counter := setK st.iface_counter cid n,
             container_ifaces := addIface st.container_ifaces cid iface,
             auto_log := st.auto_log ++ [(cid, iface)] }, iface)

/-- The explicit-interface re-registration block inside `_resolve_conn`. -/
def _register_explicit (st : LinkState) (cid ifc : String) : LinkState :=
  { st with container_ifaces := addIface st.container_ifaces cid ifc,
            iface_counter := setK st.iface_counter cid
              (max (lookupD st.iface_counter cid 0) (_eth_index ifc)) }

/-- `_resolve_conn` on a connection whose `fromContainer`/`toContainer` have
been rebuilt to the (truthy) resolved container ids. -/
def _resolve_conn (st : LinkState) (from_id to_id : String)
    (fiOpt tiOpt : Option String) : LinkState × String × String :=
  let p1 := if truthy fiOpt then (st, pys fiOpt) else _next_iface st from_id
  let st := p1.1
  let fi := p1.2
  let p2 := if truthy tiOpt then (st, pys tiOpt) else _next_iface st to_id
  let st := p2.1
  let ti := p2.2
  let st := if truthy fiOpt then _register_explicit st from_id (pys fiOpt) else st
  let st := if truthy tiOpt then _register_explicit st to_id (pys tiOpt) else st
  (st, fi, ti)

def _add_link (env : Env) (st : LinkState) (conn : Connection) : LinkState :=
  let raw_from := pyOrOpt conn.fromContainer conn.from_
  let raw_to := pyOrOpt conn.toContainer conn.to_
  match _resolve_endpoint env raw_from, _resolve_endpoint env raw_to with
  | some from_id, some to_id =>
    if (getKey env.container_info from_id).isSome ∧
        (getKey env.container_info to_id).isSome then
      let r := _resolve_conn st from_id to_id conn.fromInterface conn.toInterface
      let st := r.1
      let fi := r.2.1
      let ti := r.2.2
      { st with links := st.links ++ [[from_id ++ ":" ++ fi, to_id ++ ":" ++ ti]],
                link_registry := st.link_registry ++ [⟨from_id, fi, to_id, ti⟩] }
    else st
  | _, _ => st

def pass2 (env : Env) (t : TopologyData) (g1 : GenState) : LinkState :=
  (allConnections t).foldl (_add_link env) (initLinkState g1)

structure Step3State where
  iface_ips : List ((String × String) × (String × String))
  home_iface : List (String × String)
  ptp_routes : List (String × List (String × String))
  ptp_seq : Nat
  deriving Repr

/-- `_next_ptp` applied to the current sequence value `n`. -/
def _next_ptp (n : Nat) : String × String × String :=
  ("10.255.0." ++ pyStrInt (4 * (n : Int) + 1), "10.255.0." ++ pyStrInt (4 * (n : Int) + 2), "30")

/-- The Step-3 cross-subnet WAN condition: the two endpoints live in
different subnets and both are router-typed (the `if` guard of the PtP
branch, named so theorems can speak about "the Nth such link"). -/
def isCross (env : Env) (e : RegEntry) : Prop :=
  ((getKey env.container_info e.from_id).getD defaultCInfo).subnet_cidr ≠
    ((getKey env.container_info e.to_id).getD defaultCInfo).subnet_cidr ∧
  ((getKey env.container_info e.from_id).getD defaultCInfo).ctype ∈ _ROUTER_TYPES ∧
  ((getKey env.container_info e.to_id).getD defaultCInfo).ctype ∈ _ROUTER_TYPES

instance (env : Env) (e : RegEntry) : Decidable (isCross env e) := by
  unfold isCross
  infer_instance

/-- Whether a registry entry writes `iface_ips` at the pair `p` (either of
its two endpoint (container, interface) keys equals `p`). -/
def touches (e : RegEntry) (p : String × String) : Prop :=
  (e.from_id, e.fi) = p ∨ (e.to_id, e.ti) = p

instance (e : RegEntry) (p : String × String) : Decidable (touches e p) := by
  unfold touches
  infer_instance

/-- The number of cross-subnet router links in a registry fragment (the
value of `ptp_seq` after processing it). -/
def countCross (env : Env) (l : List RegEntry) : Nat :=
  l.countP (fun e => decide (isCross env e))

def step3Link (env : Env) (s : Step3State) (e : RegEntry) : Step3State :=
  let f_info := (getKey env.container_info e.from_id).getD defaultCInfo
  let t_info := (getKey env.container_info e.to_id).getD defaultCInfo
  let f_subnet := f_info.subnet_cidr
  let t_subnet := t_info.subnet_cidr
  if isCross env e then
    let n := s.ptp_seq
    let ptp := _next_ptp n
    let s := { s with ptp_seq := n + 1 }
    let s := { s with iface_ips := setK s.iface_ips (e.from_id, e.fi) (ptp.1, ptp.2.2) }
    let s := { s with iface_ips := setK s.iface_ips (e.to_id, e.ti) (ptp.2.1, ptp.2.2) }
    let s := if t_subnet ≠ "" then
        let pr := setK s.ptp_routes e.from_id
          (lookupD s.ptp_routes e.from_id [] ++ [(t_subnet, ptp.2.1)])
        { s with ptp_routes := pr }
      else s
    if f_subnet ≠ "" then
      let pr := setK s.ptp_routes e.to_id
        (lookupD s.ptp_routes e.to_id [] ++ [(f_subnet, ptp.1)])
      { s with ptp_routes := pr }
    else s
  else
    let s :=
      if (getKey s.home_iface e.from_id).isNone ∧ f_info.ip ≠ "" then
        { s with home_iface := setK s.home_iface e.from_id e.fi,
                 iface_ips := setK s.iface_ips (e.from_id, e.fi) (f_info.ip, f_info.prefix_len) }
      else s
    if (getKey s.home_iface e.to_id).isNone ∧ t_info.ip ≠ "" then
      { s with home_iface := setK s.home_iface e.to_id e.ti,
               iface_ips := setK s.iface_ips (e.to_id, e.ti) (t_info.ip, t_info.prefix_len) }
    else s

def step3 (env : Env) (registry : List RegEntry) : Step3State :=
  registry.foldl (step3Link env) ⟨[], [], [], 0⟩

/-- Node record of the descriptor; `exec = []` embeds the absent `exec` key. -/
structure NodeCfg where
  kind : String
  image : String
  exec : List String
  deriving DecidableEq, Repr

/-- A single-quote character (the shell quoting used by switch commands). -/
def sq : String := String.mk [Char.ofNat 39]

def switchCmd1 (iface_list : String) : String :=
  "sh -lc " ++ (sq ++ "for i in " ++ iface_list ++
  "; do ip link set \"$i\" up >/dev/null 2>&1 || true; done; " ++
  "ip link show br0 >/dev/null 2>&1 || ip link add br0 type bridge || true; " ++
  "for i in " ++ iface_list ++
  "; do ip link set \"$i\" master br0 >/dev/null 2>&1 || true; done; " ++
  "ip link set br0 up >/dev/null 2>&1 || true" ++ sq)

def switchCmd2 (ip pfx first_iface : String) : String :=
  "sh -lc " ++ (sq ++ "ip addr replace " ++ ip ++ "/" ++ pfx ++
  " dev br0 >/dev/null 2>&1 || " ++ "ip addr replace " ++ ip ++ "/" ++ pfx ++
  " dev " ++ first_iface ++ " >/dev/null 2>&1 || true" ++ sq)

/-- Stable insertion step for `sorted(..., key=_eth_index)`. -/
def _insertIface (x : String) : List String → List String
  | [] => [x]
  | y :: ys => if _eth_index y ≤ _eth_index x then y :: _insertIface x ys else x :: y :: ys

/-- Python `sorted(l, key=_eth_index)` (stable). -/
def sortIfaces (l : List String) : List String :=
  l.foldl (fun acc x => _insertIface x acc) []

def buildExec (info : CInfo) (ifaces : List String) (cid : String) (s3 : Step3State) :
    List String :=
  if info.ctype ∈ _SWITCH_TYPES then
    match ifaces with
    | [] => []
    | first_iface :: _ =>
      let iface_list := pyJoin " " ifaces
      [switchCmd1 iface_list] ++
      (if info.ip ≠ "" then [switchCmd2 info.ip info.prefix_len first_iface] else [])
  else if info.ctype ∈ _ROUTER_TYPES then
    ["sysctl -w net.ipv4.ip_forward=1"] ++
    ifaces.filterMap (fun iface =>
      (getKey s3.iface_ips (cid, iface)).map (fun ripfx =>
        "ip addr add " ++ ripfx.1 ++ "/" ++ ripfx.2 ++ " dev " ++ iface)) ++
    (lookupD s3.ptp_routes cid []).map (fun dv => "ip route add " ++ dv.1 ++ " via " ++ dv.2)
  else
    (if info.ip ≠ "" ∧ ifaces ≠ [] then
      ["ip addr add " ++ info.ip ++ "/" ++ info.prefix_len ++ " dev " ++
        lookupD s3.home_iface cid (ifaces.headD "")]
    else []) ++
    (if info.gateway ≠ "" then ["ip route replace default via " ++ info.gateway] else [])

def buildNode (env : Env) (s3 : Step3State) (ifmap : List (String × List String))
    (cid : String) : NodeCfg :=
  let info := lookupD env.container_info cid defaultCInfo
  let ifaces := sortIfaces (lookupD ifmap cid [])
  { kind := "linux", image := _image_for info.ctype, exec := buildExec info ifaces cid s3 }

def step4 (env : Env) (s3 : Step3State) (ifmap : List (String × List String))
    (t : TopologyData) : List (String × NodeCfg) :=
  (allContainers t).foldl (fun nodes c => setK nodes (pys c.id) (buildNode env s3 ifmap (pys c.id))) []

/-- The full compiler result: the descriptor (`name`, `nodes`, `links`) plus
the internal Step-2/3 artifacts, exposed so theorems can refer to them. -/
structure GenOut where
  name : String
  nodes : List (String × NodeCfg)
  links : List (List String)
  link_registry : List RegEntry
  iface_ips : List ((String × String) × (String × String))
  home_iface : List (String × String)
  ptp_routes : List (String × List (String × String))
  container_ifaces : List (String × List String)
  iface_counter : List (String × Int)
  auto_log : List (String × String)
  deriving DecidableEq, Repr

def envOf (t : TopologyData) : Env := mkEnv t

def pass1Of (t : TopologyData) : GenState := pass1 (envOf t) t

def pass2Of (t : TopologyData) : LinkState := pass2 (envOf t) t (pass1Of t)

def step3Of (t : TopologyData) : Step3State := step3 (envOf t) (pass2Of t).link_registry

def nodesOf (t : TopologyData) : List (String × NodeCfg) :=
  step4 (envOf t) (step3Of t) (pass2Of t).container_ifaces t

/-- The two-endpoint link list built from a registry entry (the shape pushed
by `_add_link`). -/
def regLink (e : RegEntry) : List String :=
  [e.from_id ++ ":" ++ e.fi, e.to_id ++ ":" ++ e.ti]

/-- The id (key) of every container occurrence in walking order. -/
def containerIds (t : TopologyData) : List String :=
  (allContainers t).map (fun c => pys c.id)

def generateCore (t : TopologyData) : GenOut :=
  { name := if truthy t.name then pys t.name else "ae3gis-topology",
    nodes := nodesOf t, links := (pass2Of t).links, link_registry := (pass2Of t).link_registry,
    iface_ips := (step3Of t).iface_ips, home_iface := (step3Of t).home_iface,
    ptp_routes := (step3Of t).ptp_routes, container_ifaces := (pass2Of t).container_ifaces,
    iface_counter := (pass2Of t).iface_counter, auto_log := (pass2Of t).auto_log }

/-- `generate_clab_yaml` up to YAML serialization: the only exception the
source can raise on a (shape-correct) topology dict is the `KeyError` at
`container_info[c["id"]]` for a container without an `"id"` key; since the
function is pure, raising at the first such container is observationally the
same as the up-front guard used here. -/
def generate_clab_yaml (t : TopologyData) : Except String GenOut :=
  if hasMissingContainerId t then Except.error "KeyError" else Except.ok (generateCore t)

end ClabGenerator

/-! ## JSON values and `json.loads` (used by `inspect` and the PTY relay)

JSON numbers are stored by their `int(...)` truncation (`jnum`), which is the
only way the embedded code observes them; decimals are treated exactly
(ideal decimal arithmetic, not IEEE floats).  The parser is fueled; the fuel
supplied by `json_loads` is generous for its input, so exhaustion never
fires on inputs whose nesting is bounded by their length. -/

inductive Json where
  | null
  | jbool (b : Bool)
  | jnum (trunc : Int)
  | jstr (s : String)
  | jarr (elems : List Json)
  | jobj (fields : List (String × Json))
  deriving Repr

def lbrace : Char := Char.ofNat 123

def rbrace : Char := Char.ofNat 125

def jsonWs (c : Char) : Bool := c = ' ' ∨ c = '\t' ∨ c = '\n' ∨ c = '\r'

def skipWs (l : List Char) : List Char := l.dropWhile jsonWs

def parseHex4 (l : List Char) : Option (Nat × List Char) :=
  match l with
  | a :: b :: c :: d :: rest =>
    match hexVal a, hexVal b, hexVal c, hexVal d with
    | some x, some y, some z, some w => some ((((x * 16 + y) * 16 + z) * 16 + w), rest)
    | _, _, _, _ => none
  | _ => none

/-- JSON string body after the opening quote (escapes decoded; a `\uXXXX`
with an invalid scalar value degrades to `Char.ofNat`'s default; surrogate
pairs are not combined). -/
def parseStrBody : Nat → List Char → Option (List Char × List Char)
  | 0, _ => none
  | _ + 1, [] => none
  | fuel + 1, c :: rest =>
    if c = '"' then some ([], rest)
    else if c = '\\' then
      match rest with
      | [] => none
      | e :: rest2 =>
        if e = '"' then (parseStrBody fuel rest2).map (fun p => ('"' :: p.1, p.2))
        else if e = '\\' then (parseStrBody fuel rest2).map (fun p => ('\\' :: p.1, p.2))
        else if e = '/' then (parseStrBody fuel rest2).map (fun p => ('/' :: p.1, p.2))
        else if e = 'b' then (parseStrBody fuel rest2).map (fun p => (Char.ofNat 8 :: p.1, p.2))
        else if e = 'f' then (parseStrBody fuel rest2).map (fun p => (Char.ofNat 12 :: p.1, p.2))
        else if e = 'n' then (parseStrBody fuel rest2).map (fun p => ('\n' :: p.1, p.2))
        else if e = 'r' then (parseStrBody fuel rest2).map (fun p => ('\r' :: p.1, p.2))
        else if e = 't' then (parseStrBody fuel rest2).map (fun p => ('\t' :: p.1, p.2))
        else if e = 'u' then
          match parseHex4 rest2 with
          | some q => (parseStrBody fuel q.2).map (fun p => (Char.ofNat q.1 :: p.1, p.2))
          | none => none
        else none
    else (parseStrBody fuel rest).map (fun p => (c :: p.1, p.2))

def parseDigitsRun : List Char → (List Char × List Char)
  | [] => ([], [])
  | c :: rest =>
    if isDigitChar c then
      let p := parseDigitsRun rest
      (c :: p.1, p.2)
    else ([], c :: rest)

def digitsToNat (l : List Char) : Nat := foldAcc 0 l

/-- `int()` truncation (toward zero) of the exact decimal
`sign * 0.mant * 10 ^ (intLen + exp)` style number with mantissa digits
`mant`, `fracLen` of which are fractional, and decimal exponent `exp`. -/
def truncOfParts (neg : Bool) (mant : List Char) (fracLen : Nat) (exp : Int) : Int :=
  let m := digitsToNat mant
  let scale : Int := exp - (fracLen : Int)
  let mag : Nat := if 0 ≤ scale then m * 10 ^ scale.toNat else m / 10 ^ (-scale).toNat
  if neg then -(mag : Int) else (mag : Int)

def parseExp (l : List Char) : Option (Int × List Char) :=
  let p : Bool × List Char :=
    match l with
    | '-' :: r => (true, r)
    | '+' :: r => (false, r)
    | _ => (false, l)
  let d := parseDigitsRun p.2
  if d.1 = [] then none
  else some ((if p.1 then -(digitsToNat d.1 : Int) else (digitsToNat d.1 : Int)), d.2)

def parseNumExp (neg : Bool) (mant : List Char) (fracLen : Nat) :
    List Char → Except Unit (Json × List Char)
  | 'e' :: r =>
    match parseExp r with
    | some p => .ok (Json.jnum (truncOfParts neg mant fracLen p.1), p.2)
    | none => .error ()
  | 'E' :: r =>
    match parseExp r with
    | some p => .ok (Json.jnum (truncOfParts neg mant fracLen p.1), p.2)
    | none => .error ()
  | rest => .ok (Json.jnum (truncOfParts neg mant fracLen 0), rest)

def parseNum (l : List Char) : Except Unit (Json × List Char) :=
  let p0 : Bool × List Char :=
    match l with
    | '-' :: r => (true, r)
    | _ => (false, l)
  let ip := parseDigitsRun p0.2
  if ip.1 = [] then .error ()
  else
    match ip.2 with
    | '.' :: r =>
      let q := parseDigitsRun r
      if q.1 = [] then .error ()
      else parseNumExp p0.1 (ip.1 ++ q.1) q.1.length q.2
    | rest => parseNumExp p0.1 ip.1 0 rest

mutual

def parseVal : Nat → List Char → Except Unit (Json × List Char)
  | 0, _ => .error ()
  | fuel + 1, l =>
    match skipWs l with
    | [] => .error ()
    | c :: rest =>
      if c = '"' then
        match parseStrBody (rest.length + 1) rest with
        | some p => .ok (Json.jstr (String.mk p.1), p.2)
        | none => .error ()
      else if c = lbrace then parseObjBody fuel rest
      else if c = '[' then parseArrBody fuel rest
      else if c = 't' then
        match rest with
        | 'r' :: 'u' :: 'e' :: r => .ok (Json.jbool true, r)
        | _ => .error ()
      else if c = 'f' then
        match rest with
        | 'a' :: 'l' :: 's' :: 'e' :: r => .ok (Json.jbool false, r)
        | _ => .error ()
      else if c = 'n' then
        match rest with
        | 'u' :: 'l' :: 'l' :: r => .ok (Json.null, r)
        | _ => .error ()
      else if c = '-' ∨ isDigitChar c then parseNum (c :: rest)
      else .error ()

def parseArrBody : Nat → List Char → Except Unit (Json × List Char)
  | 0, _ => .error ()
  | fuel + 1, l =>
    match skipWs l with
    | [] => .error ()
    | c :: rest =>
      if c = ']' then .ok (Json.jarr [], rest)
      else parseArrLoop fuel [] (c :: rest)

def parseArrLoop : Nat → List Json → List Char → Except Unit (Json × List Char)
  | 0, _, _ => .error ()
  | fuel + 1, acc, l =>
    match parseVal fuel l with
    | .error _ => .error ()
    | .ok p =>
      match skipWs p.2 with
      | [] => .error ()
      | c :: rest =>
        if c = ',' then parseArrLoop fuel (acc ++ [p.1]) rest
        else if c = ']' then .ok (Json.jarr (acc ++ [p.1]), rest)
        else .error ()

def parseObjBody : Nat → List Char → Except Unit (Json × List Char)
  | 0, _ => .error ()
  | fuel + 1, l =>
    match skipWs l with
    | [] => .error ()
    | c :: rest =>
      if c = rbrace then .ok (Json.jobj [], rest)
      else parseObjLoop fuel [] (c :: rest)

def parseObjLoop : Nat → List (String × Json) → List Char → Except Unit (Json × List Char)
  | 0, _, _ => .error ()
  | fuel + 1, acc, l =>
    match skipWs l with
    | [] => .error ()
    | c :: rest =>
      if c = '"' then
        match parseStrBody (rest.length + 1) rest with
        | some sp =>
          match skipWs sp.2 with
          | ':' :: r3 =>
            match parseVal fuel r3 with
            | .ok vp =>
              let acc := setK acc (String.mk sp.1) vp.1
              match skipWs vp.2 with
              | [] => .error ()
              | c2 :: r5 =>
                if c2 = ',' then parseObjLoop fuel acc r5
                else if c2 = rbrace then .ok (Json.jobj acc, r5)
                else .error ()
            | .error _ => .error ()
          | _ => .error ()
        | none => .error ()
      else .error ()

end

/-- `json.loads`: parse a complete JSON document (trailing whitespace
allowed, anything else is a decode error). -/
def json_loads (s : String) : Except Unit Json :=
  match parseVal (s.data.length * 4 + 16) s.data with
  | .error _ => .error ()
  | .ok p => if skipWs p.2 = [] then .ok p.1 else .error ()

/-! ## Lab driver (`backend/services/clab_manager.py`) -/

namespace ClabManager

/-- Result of one `_run` invocation: `(returncode, stdout, stderr)`. -/
structure RunResult where
  rc : Int
  stdout : String
  stderr : String
  deriving Repr

def _mgmt_seed (topology_id : String) : Option Int :=
  pyIntHexOfString (topology_id.take 8)

def management_network_name (topology_id : String) : String :=
  "ae3gis-mgmt-" ++ topology_id.take 8

def management_ipv4_subnet (topology_id : String) (attempt : Nat) : Option String :=
  (_mgmt_seed topology_id).map (fun seed =>
    let total_slots : Int := 64 * 256
    let slot := (seed + (attempt : Int) * 9973) % total_slots
    let second_octet := 64 + slot / 256
    let third_octet := slot % 256
    "100." ++ pyStrInt second_octet ++ "." ++ pyStrInt third_octet ++ ".0/24")

def management_ipv6_subnet (topology_id : String) (attempt : Nat) : Option String :=
  (_mgmt_seed topology_id).map (fun seed =>
    let total_slots : Int := 64 * 256
    let slot := (seed + (attempt : Int) * 9973) % total_slots
    let second_octet := 64 + slot / 256
    let third_octet := slot % 256
    "3fff:100:" ++ pyStrInt second_octet ++ ":" ++ pyStrInt third_octet ++ "::/64")

def _yaml_path (workdir topology_id : String) : String :=
  workdir ++ "/" ++ topology_id ++ ".clab.yml"

/-- Python substring test `pat in s`. -/
def subIn (pat : List Char) : List Char → Bool
  | [] => pat.isEmpty
  | c :: rest => startsWithL pat (c :: rest) || subIn pat rest

def pyIn (pat s : String) : Bool := subIn pat.data s.data

def asciiLower (c : Char) : Char :=
  if 'A' ≤ c ∧ c ≤ 'Z' then Char.ofNat (c.toNat + 32) else c

/-- Python `str.lower()` (ASCII; the patterns matched are ASCII). -/
def pyLower (s : String) : String := String.mk (s.data.map asciiLower)

def overlapError (stderr : String) : Bool :=
  pyIn "overlap" (pyLower stderr) && pyIn "subnet" (pyLower stderr)

def staleBridgeError (stderr : String) : Bool :=
  pyIn "Failed to lookup link \"br-" stderr && pyIn "Link not found" stderr

def deploy_cmd (path mgmt_net ipv4_subnet ipv6_subnet : String) : List String :=
  ["sudo", "containerlab", "deploy", "-t", path, "--network", mgmt_net,
   "--ipv4-subnet", ipv4_subnet, "--ipv6-subnet", ipv6_subnet, "--reconfigure"]

def network_rm_cmd (mgmt_net : String) : List String :=
  ["sudo", "docker", "network", "rm", mgmt_net]

/-- Outcome of `deploy`: the sequence of external commands issued, and
either the engine stdout (`ok`) or the raised error (`error`). -/
structure DeployResult where
  cmds : List (List String)
  result : Except String String
  deriving Repr

/-- Loop-control outcome of one iteration of the `for attempt in range(4)`
body: return, `continue` after a stale-bridge cleanup (which consumed a
second `_run` for `docker network rm`), `continue` after an overlap, or
`break`-and-raise. -/
inductive IterOut where
  | stop (res : DeployResult)
  | nextTwo (stderr : String) (log : List (List String))
  | nextOne (stderr : String) (log : List (List String))
  deriving Repr

/-- One iteration of the deploy loop (source lines 231-275), given the
already-resolved management subnets and the `_run` result `r`. -/
def deployIter (path mgmt_net : String) (attempt : Nat) (r : RunResult)
    (ipv4_subnet ipv6_subnet : String) (log : List (List String)) : IterOut :=
  let cmd := deploy_cmd path mgmt_net ipv4_subnet ipv6_subnet
  let log := log ++ [cmd]
  if r.rc = 0 then .stop ⟨log, .ok r.stdout⟩
  else if staleBridgeError r.stderr then
    .nextTwo r.stderr (log ++ [network_rm_cmd mgmt_net])
  else if overlapError r.stderr = true ∧ attempt < 3 then .nextOne r.stderr log
  else .stop ⟨log, .error ("containerlab deploy failed:\n" ++ r.stderr)⟩

/-- One loop body: resolve the management subnets (a `ValueError` from a
non-hex id surfaces here), run the deploy, and either stop or continue via
the continuation `k` (which receives the next call index, the stderr, and
the updated command log). -/
def deployBody (path mgmt_net : String) (runs : Nat → RunResult) (attempt ci : Nat)
    (log : List (List String)) (o4 o6 : Option String)
    (k : Nat → String → List (List String) → DeployResult) : DeployResult :=
  match o4, o6 with
  | some ipv4, some ipv6 =>
    match deployIter path mgmt_net attempt (runs ci) ipv4 ipv6 log with
    | .stop res => res
    | .nextTwo stderr log2 => k (ci + 2) stderr log2
    | .nextOne stderr log2 => k (ci + 1) stderr log2
  | _, _ => ⟨log, .error "ValueError"⟩

/-- The `for attempt in range(4)` loop of `deploy`.  `runs` is the oracle
giving the result of the i-th `_run` invocation; a stale-bridge branch
consumes two invocations (the failed deploy and the `docker network rm`). -/
def deployLoop (topology_id path mgmt_net : String) (runs : Nat → RunResult) :
    List Nat → Nat → String → List (List String) → DeployResult
  | [], _, last_stderr, log =>
    ⟨log, .error ("containerlab deploy failed:\n" ++ last_stderr)⟩
  | attempt :: rest, ci, _, log =>
    deployBody path mgmt_net runs attempt ci log
      (management_ipv4_subnet topology_id attempt)
      (management_ipv6_subnet topology_id attempt)
      (fun ci2 stderr log2 => deployLoop topology_id path mgmt_net runs rest ci2 stderr log2)

def deploy (topology_id workdir : String) (path_exists : Bool) (runs : Nat → RunResult) :
    DeployResult :=
  if path_exists = false then
    ⟨[], .error ("YAML not found: " ++ _yaml_path workdir topology_id)⟩
  else
    deployLoop topology_id (_yaml_path workdir topology_id)
      (management_network_name topology_id) runs [0, 1, 2, 3] 0 "" []

/-- `inspect` from the engine result onward: non-zero exit or a JSON decode
error fall back to `[]`; a decoded object yields its `containers` member
(default `[]`); any other decoded value hits `data.get` and raises
`AttributeError` (modelled as `.error`). -/
def inspect (rc : Int) (stdout : String) : Except String Json :=
  if rc ≠ 0 then .ok (Json.jarr [])
  else
    match json_loads stdout with
    | .error _ => .ok (Json.jarr [])
    | .ok (Json.jobj kvs) => .ok (lookupD kvs "containers" (Json.jarr []))
    | .ok _ => .error "AttributeError"

end ClabManager

/-! ## PTY relay writer (`backend/routers/containerlab.py`, `_write_pty`) -/

namespace PtyRelay

/-- Python `int(x)` on a JSON-decoded value: numbers truncate, bools map to
0/1, strings parse, everything else raises (`TypeError`). -/
def pyIntOfJson : Json → Option Int
  | .jnum v => some v
  | .jbool b => some (if b then 1 else 0)
  | .jstr s => pyIntOfString s
  | _ => none

/-- Observable effect of one iteration of the writer loop on one received
text message. -/
inductive PtyAction where
  | resize (rows cols : Int)
  | write (message : String)
  | crash
  deriving DecidableEq, Repr

/-- `msg.get('type') == 'resize'` on a decoded JSON object. -/
def isResizeType (kvs : List (String × Json)) : Bool :=
  match getKey kvs "type" with
  | some (Json.jstr s) => decide (s = "resize")
  | _ => false

/-- One iteration of `_write_pty`: try the message as a JSON resize control
frame; `json.JSONDecodeError`, `TypeError` and `ValueError` fall through to
the raw `os.write`; an `AttributeError` from `msg.get` on a non-object JSON
value is not caught by the inner handler and breaks the loop (`crash`). -/
def _write_pty_step (message : String) : PtyAction :=
  match json_loads message with
  | .error _ => .write message
  | .ok j =>
    match j with
    | .jobj kvs =>
      if isResizeType kvs then
        match pyIntOfJson (lookupD kvs "cols" (Json.jnum 80)) with
        | none => .write message
        | some c =>
          match pyIntOfJson (lookupD kvs "rows" (Json.jnum 24)) with
          | none => .write message
          | some r => .resize (max 1 r) (max 1 c)
      else .write message
    | _ => .crash

/-- The writer loop over the sequence of received messages: actions are
performed until the stream ends or an iteration crashes. -/
def _write_pty : List String → List PtyAction
  | [] => []
  | m :: rest =>
    match _write_pty_step m with
    | .crash => [.crash]
    | a => a :: _write_pty rest

end PtyRelay

/-! ## Reverse proxy (`backend/routers/proxy.py`, `proxy_web_ui`) -/

namespace Proxy

def pyStrip (s : String) : String := String.mk (stripWs s.data)

/-- Outcome of the container-resolution part of `proxy_web_ui` (after the
`docker inspect` subprocess has completed). -/
inductive ProxyOutcome where
  | httpError (code : Int) (detail : String)
  | forward (target_ip : String)
  deriving DecidableEq, Repr

/-- `proxy_web_ui` from the completed `docker inspect` call onward: non-zero
exit is always a 404; then `"running|ip1|ip2|"` is parsed, a non-running
container is a 409, an empty ip list a 502, otherwise the request is
forwarded to the first ip. -/
def proxy_decision (container_id : String) (rc : Int) (stdout : String) : ProxyOutcome :=
  if rc ≠ 0 then
    .httpError 404 ("Container " ++ container_id ++ " not found in deployment")
  else
    let parts := pySplitOn (pyStrip stdout) "|"
    let is_running : Bool :=
      match parts with
      | [] => false
      | p0 :: _ => decide (ClabManager.pyLower p0 = "true")
    let ips := (parts.drop 1).filter (fun p => decide (p ≠ ""))
    if is_running = false then
      .httpError 409 ("Container " ++ container_id ++ " is not running")
    else
      match ips with
      | [] => .httpError 502 ("Container " ++ container_id ++ " does not have a valid management IP")
      | ip :: _ => .forward ip

end Proxy

/-! ## Concrete inputs used by counterexamples and witnesses -/

/-- A text frame that parses as a JSON object with type `resize` but a
non-numeric `cols` member. -/
def resizeBadColsMsg : String := "\x7b\"type\": \"resize\", \"cols\": \"abc\", \"rows\": 40\x7d"

/-- A well-formed resize control frame (scenario S5 of the spec). -/
def resizeMsg : String := "\x7b\"type\": \"resize\", \"cols\": 132, \"rows\": 40\x7d"

/-- Concrete two-subnet topology: routers R1/R2 behind subnets s1/s2, one
site-scope connection between the subnet ids (spec scenario S2). -/
def wTopo : ClabGenerator.TopologyData :=
  ⟨some "demo",
   [⟨some "siteA",
     [⟨some "s1", some "10.0.0.0/24", some "10.0.0.1",
       [⟨some "R1", some "router", some "10.0.0.1"⟩], []⟩,
      ⟨some "s2", some "10.1.0.0/24", some "10.1.0.1",
       [⟨some "R2", some "router", some "10.1.0.1"⟩], []⟩],
     [⟨none, none, some "s1", some "s2", none, none⟩]⟩],
   []⟩

/-- Concrete topology with a switch that has an IP and one attached host. -/
def swTopo : ClabGenerator.TopologyData :=
  ⟨some "sw",
   [⟨some "siteA",
     [⟨some "s1", some "10.0.0.0/24", none,
       [⟨some "SW", some "switch", some "10.0.0.2"⟩,
        ⟨some "X", some "workstation", some "10.0.0.10"⟩],
       [⟨some "X", some "SW", none, none, none, none⟩]⟩],
     []⟩],
   []⟩

/-- Concrete topology whose single container dict lacks the `"id"` key. -/
def noIdTopo : ClabGenerator.TopologyData :=
  ⟨some "broken",
   [⟨some "siteA",
     [⟨some "s1", some "10.0.0.0/24", none,
       [⟨none, some "router", some "10.0.0.1"⟩], []⟩],
     []⟩],
   []⟩

/-- Concrete topology with a cross-subnet router link whose `to` subnet has
no CIDR: routers R1 (subnet 10.0.0.0/24) and R2 (subnet without a cidr),
connected by a site-scope connection naming the containers directly. -/
def c2Topo : ClabGenerator.TopologyData :=
  ⟨some "c2",
   [⟨some "siteA",
     [⟨some "s1", some "10.0.0.0/24", some "10.0.0.1",
       [⟨some "R1", some "router", some "10.0.0.1"⟩], []⟩,
      ⟨some "s2", none, none,
       [⟨some "R2", some "router", none⟩], []⟩],
     [⟨some "R1", some "R2", none, none, none, none⟩]⟩],
   []⟩

/-- Concrete topology mixing an explicit interface claim (`eth5` on R1) with
auto-assigned interfaces: the auto-assignment for R1 must skip to `eth6`. -/
def c6Topo : ClabGenerator.TopologyData :=
  ⟨some "c6",
   [⟨some "siteA",
     [⟨some "s1", some "10.0.0.0/24", some "10.0.0.1",
       [⟨some "R1", some "router", some "10.0.0.1"⟩,
        ⟨some "R2", some "router", some "10.0.0.2"⟩,
        ⟨some "X", some "workstation", some "10.0.0.10"⟩], []⟩],
     [⟨some "R1", some "R2", none, none, some "eth5", none⟩,
      ⟨some "R1", some "X", none, none, none, none⟩]⟩],
   []⟩

/-- Run oracle of a deploy in which the first engine call fails with the
stale-bridge pattern, the `docker network rm` succeeds, and the retried
deploy succeeds. -/
def c3Runs : Nat → ClabManager.RunResult := fun i =>
  if i = 0 then ⟨1, "", "Error: Failed to lookup link \"br-x\": Link not found"⟩
  else if i = 1 then ⟨0, "", ""⟩
  else ⟨0, "deployed", ""⟩

/-! ## Lemmas about the embedding primitives -/

@[simp] theorem getKey_nil {κ α : Type} [DecidableEq κ] (k : κ) :
    getKey ([] : List (κ × α)) k = none := rfl

theorem getKey_cons {κ α : Type} [DecidableEq κ] (p : κ × α) (m : List (κ × α)) (k : κ) :
    getKey (p :: m) k = if p.1 = k then some p.2 else getKey m k := by
  by_cases h : p.1 = k
  · simp [getKey, List.find?_cons_of_pos, h]
  · simp [getKey, List.find?_cons_of_neg, h]

theorem getKey_setK_self {κ α : Type} [DecidableEq κ] (m : List (κ × α)) (k : κ) (v : α) :
    getKey (setK m k v) k = some v := by
  induction m with
  | nil => simp [setK, getKey_cons]
  | cons p t ih =>
    by_cases hp : p.1 = k
    · simp [setK, hp, getKey_cons]
    · simp only [setK, hp, if_false]
      rw [getKey_cons]
      simp [hp, ih]

theorem getKey_setK_ne {κ α : Type} [DecidableEq κ] (m : List (κ × α)) (k k' : κ) (v : α)
    (h : k' ≠ k) : getKey (setK m k v) k' = getKey m k' := by
  induction m with
  | nil =>
    simp only [setK, getKey_cons, getKey_nil]
    rw [if_neg (fun hh => h hh.symm)]
  | cons p t ih =>
    by_cases hp : p.1 = k
    · simp only [setK, hp, if_true]
      rw [getKey_cons, getKey_cons]
      have hk : ¬(k = k') := fun hh => h hh.symm
      have hp' : ¬(p.1 = k') := by rw [hp]; exact hk
      simp [hk, hp']
    · simp only [setK, hp, if_false]
      rw [getKey_cons, getKey_cons]
      by_cases hq : p.1 = k'
      · simp [hq]
      · simp only [hq, if_false]
        exact ih

theorem lookupD_setK_self {κ α : Type} [DecidableEq κ] (m : List (κ × α)) (k : κ) (v d : α) :
    lookupD (setK m k v) k d = v := by
  simp [lookupD, getKey_setK_self]

theorem lookupD_setK_ne {κ α : Type} [DecidableEq κ] (m : List (κ × α)) (k k' : κ) (v d : α)
    (h : k' ≠ k) : lookupD (setK m k v) k' d = lookupD m k' d := by
  simp [lookupD, getKey_setK_ne _ _ _ _ h]

theorem digitVal_digitChar {d : Nat} (h : d < 10) : digitVal (digitChar d) = d := by
  interval_cases d <;> rfl

theorem isDigitChar_digitChar {d : Nat} (h : d < 10) : isDigitChar (digitChar d) = true := by
  interval_cases d <;> rfl

theorem natToCharsAux_digits :
    ∀ (fuel n : Nat), n ≤ fuel → ∀ c ∈ natToCharsAux fuel n, isDigitChar c = true := by
  intro fuel
  induction fuel with
  | zero => intro n _ c hc; simp [natToCharsAux] at hc
  | succ f ih =>
    intro n hn c hc
    by_cases h0 : n = 0
    · simp [natToCharsAux, h0] at hc
    · simp only [natToCharsAux, h0, if_false, List.mem_append, List.mem_singleton] at hc
      rcases hc with hc | hc
      · exact ih (n / 10) (by omega) c hc
      · rw [hc]; exact isDigitChar_digitChar (Nat.mod_lt _ (by omega))

theorem foldAcc_append (acc : Nat) (l1 l2 : List Char) :
    foldAcc acc (l1 ++ l2) = foldAcc (foldAcc acc l1) l2 := by
  simp [foldAcc, List.foldl_append]

theorem foldAcc_natToCharsAux :
    ∀ (fuel n acc : Nat), n ≤ fuel →
      foldAcc acc (natToCharsAux fuel n) = acc * 10 ^ (natToCharsAux fuel n).length + n := by
  intro fuel
  induction fuel with
  | zero =>
    intro n acc hn
    have : n = 0 := Nat.le_zero.mp hn
    simp [natToCharsAux, this, foldAcc]
  | succ f ih =>
    intro n acc hn
    by_cases h0 : n = 0
    · simp [natToCharsAux, h0, foldAcc]
    · have hdiv : n / 10 ≤ f := by omega
      simp only [natToCharsAux, h0, if_false]
      rw [foldAcc_append, ih (n / 10) acc hdiv]
      have hmod : n % 10 < 10 := Nat.mod_lt _ (by omega)
      simp only [foldAcc, List.foldl_cons, List.foldl_nil, List.length_append,
        List.length_singleton]
      rw [digitVal_digitChar hmod]
      have : acc * 10 ^ ((natToCharsAux f (n / 10)).length + 1) =
          acc * 10 ^ (natToCharsAux f (n / 10)).length * 10 := by ring
      rw [this]
      omega

theorem parseUDAux_digits (l : List Char) (h : ∀ c ∈ l, isDigitChar c = true) (acc : Nat) :
    parseUDAux acc l = some (foldAcc acc l) := by
  induction l generalizing acc with
  | nil => simp [parseUDAux, foldAcc]
  | cons c rest ih =>
    have hc : isDigitChar c = true := h c (by simp)
    rw [parseUDAux.eq_def]
    simp only [hc, if_true]
    rw [ih (fun c hc => h c (by simp [hc]))]
    rfl

theorem parseUD_digits (l : List Char) (hne : l ≠ []) (h : ∀ c ∈ l, isDigitChar c = true) :
    parseUD l = some (foldAcc 0 l) := by
  match l, hne with
  | c :: rest, _ =>
    have hc : isDigitChar c = true := h c (by simp)
    simp only [parseUD, hc, if_true]
    rw [parseUDAux_digits rest (fun c hc => h c (by simp [hc]))]
    have : foldAcc 0 (c :: rest) = foldAcc (digitVal c) rest := by
      unfold foldAcc
      rw [List.foldl_cons]
      norm_num
    rw [this]

theorem natToChars_digits (n : Nat) : ∀ c ∈ natToChars n, isDigitChar c = true := by
  intro c hc
  by_cases h0 : n = 0
  · simp [natToChars, h0] at hc
    rw [hc]; rfl
  · simp only [natToChars, h0, if_false] at hc
    exact natToCharsAux_digits (n + 1) n (by omega) c hc

theorem natToChars_ne_nil (n : Nat) : natToChars n ≠ [] := by
  by_cases h0 : n = 0
  · simp [natToChars, h0]
  · simp only [natToChars, h0, if_false]
    cases hfe : natToCharsAux (n + 1) n with
    | nil =>
      exfalso
      have := foldAcc_natToCharsAux (n + 1) n 0 (by omega)
      rw [hfe] at this
      simp [foldAcc] at this
      omega
    | cons a l => simp

theorem foldAcc_natToChars (n : Nat) : foldAcc 0 (natToChars n) = n := by
  by_cases h0 : n = 0
  · simp [natToChars, h0, foldAcc, digitVal]
  · simp only [natToChars, h0, if_false]
    rw [foldAcc_natToCharsAux (n + 1) n 0 (by omega)]
    simp

theorem parseUD_natToChars (n : Nat) : parseUD (natToChars n) = some n := by
  rw [parseUD_digits _ (natToChars_ne_nil n) (natToChars_digits n), foldAcc_natToChars]

theorem digit_not_ws {c : Char} (h : isDigitChar c = true) : isPyWs c = false := by
  simp only [isDigitChar, decide_eq_true_eq] at h
  rcases h with h | h | h | h | h | h | h | h | h | h <;> subst h <;> rfl

theorem dropWhile_false (p : Char → Bool) (l : List Char) (h : ∀ c ∈ l, p c = false) :
    l.dropWhile p = l := by
  cases l with
  | nil => rfl
  | cons c t => simp [List.dropWhile_cons, h c (by simp)]

theorem stripWs_digits (l : List Char) (h : ∀ c ∈ l, isDigitChar c = true) :
    stripWs l = l := by
  unfold stripWs
  rw [dropWhile_false _ _ (fun c hc => digit_not_ws (h c hc))]
  rw [dropWhile_false _ _ (fun c hc => digit_not_ws (h c (List.mem_reverse.mp hc)))]
  exact List.reverse_reverse l

theorem digit_not_dash {c : Char} (h : isDigitChar c = true) : c ≠ '-' ∧ c ≠ '+' := by
  simp only [isDigitChar, decide_eq_true_eq] at h
  rcases h with h | h | h | h | h | h | h | h | h | h <;> subst h <;> exact ⟨by decide, by decide⟩

theorem natToChars_inj {a b : Nat} (h : natToChars a = natToChars b) : a = b := by
  have ha := parseUD_natToChars a
  rw [h, parseUD_natToChars b] at ha
  exact (Option.some_inj.mp ha).symm

/-- Two digit runs followed by a dot delimiter split uniquely. -/
theorem digits_dot_inj : ∀ (d1 : List Char) {d2 r1 r2 : List Char},
    (∀ c ∈ d1, isDigitChar c = true) → (∀ c ∈ d2, isDigitChar c = true) →
    d1 ++ '.' :: r1 = d2 ++ '.' :: r2 → d1 = d2 ∧ r1 = r2 := by
  intro d1
  induction d1 with
  | nil =>
    intro d2 r1 r2 _ h2 heq
    cases d2 with
    | nil => exact ⟨rfl, by simpa using heq⟩
    | cons b bs =>
      exfalso
      simp only [List.nil_append, List.cons_append, List.cons.injEq] at heq
      have hb := h2 b (by simp)
      rw [← heq.1] at hb
      exact absurd hb (by decide)
  | cons a as ih =>
    intro d2 r1 r2 h1 h2 heq
    cases d2 with
    | nil =>
      exfalso
      simp only [List.nil_append, List.cons_append, List.cons.injEq] at heq
      have ha := h1 a (by simp)
      rw [heq.1] at ha
      exact absurd ha (by decide)
    | cons b bs =>
      simp only [List.cons_append, List.cons.injEq] at heq
      obtain ⟨hab, htail⟩ := heq
      obtain ⟨hd, hr⟩ := ih (fun c hc => h1 c (by simp [hc]))
        (fun c hc => h2 c (by simp [hc])) htail
      exact ⟨by rw [hab, hd], hr⟩

@[simp] theorem data_append_eq (s t : String) : (s ++ t).data = s.data ++ t.data := rfl

@[simp] theorem data_mk_eq (l : List Char) : (String.mk l).data = l := rfl

theorem pyStrInt_nonneg (n : Int) (h : 0 ≤ n) : pyStrInt n = String.mk (natToChars n.toNat) := by
  unfold pyStrInt
  rw [if_neg (by omega)]

/-- Injectivity of the `"100.<s2>.<s3>.0/24"` format in the octet values. -/
theorem subnet_str_inj (x y : Int) (hx : 0 ≤ x) (hy : 0 ≤ y)
    (h : "100." ++ pyStrInt (64 + x / 256) ++ "." ++ pyStrInt (x % 256) ++ ".0/24"
       = "100." ++ pyStrInt (64 + y / 256) ++ "." ++ pyStrInt (y % 256) ++ ".0/24") :
    x = y := by
  have hx2 : (0 : Int) ≤ 64 + x / 256 := by omega
  have hy2 : (0 : Int) ≤ 64 + y / 256 := by omega
  have hx3 : (0 : Int) ≤ x % 256 := by omega
  have hy3 : (0 : Int) ≤ y % 256 := by omega
  rw [pyStrInt_nonneg _ hx2, pyStrInt_nonneg _ hy2, pyStrInt_nonneg _ hx3,
    pyStrInt_nonneg _ hy3] at h
  have hd := congrArg String.data h
  have d100 : "100.".data = ['1', '0', '0', '.'] := rfl
  have ddot : ".".data = ['.'] := rfl
  have dtail : ".0/24".data = ['.', '0', '/', '2', '4'] := rfl
  simp only [data_append_eq, data_mk_eq, d100, ddot, dtail, List.append_assoc,
    List.cons_append, List.nil_append, List.cons.injEq, true_and] at hd
  obtain ⟨hA, hrest⟩ := digits_dot_inj _ (natToChars_digits _) (natToChars_digits _) hd
  obtain ⟨hB, -⟩ := digits_dot_inj _ (natToChars_digits _) (natToChars_digits _) hrest
  have e1 : (64 + x / 256).toNat = (64 + y / 256).toNat := natToChars_inj hA
  have e2 : (x % 256).toNat = (y % 256).toNat := natToChars_inj hB
  omega

theorem management_ipv4_subnet_eq (tid : String) (seed : Int)
    (h : ClabManager._mgmt_seed tid = some seed) (a : Nat) :
    ClabManager.management_ipv4_subnet tid a =
      some ("100." ++ pyStrInt (64 + ((seed + (a : Int) * 9973) % 16384) / 256) ++ "." ++
        pyStrInt (((seed + (a : Int) * 9973) % 16384) % 256) ++ ".0/24") := by
  simp only [ClabManager.management_ipv4_subnet, h, Option.map_some']
  norm_num

/-- C5.  For every topology id (whose first eight characters parse as hex, as
every stored id does), the four IPv4 management subnets for attempts 0..3 are
pairwise distinct /24s of the form `100.b.c.0/24` with `64 ≤ b ≤ 127` and
`0 ≤ c ≤ 255` (i.e. inside `100.64.0.0/10`). -/
theorem C5_management_subnets (tid : String) (seed : Int)
    (h : ClabManager._mgmt_seed tid = some seed) :
    (∀ a : Nat, a < 4 → ∃ s2 s3 : Int, 64 ≤ s2 ∧ s2 ≤ 127 ∧ 0 ≤ s3 ∧ s3 ≤ 255 ∧
        ClabManager.management_ipv4_subnet tid a =
          some ("100." ++ pyStrInt s2 ++ "." ++ pyStrInt s3 ++ ".0/24")) ∧
    (∀ a1 a2 : Nat, a1 < 4 → a2 < 4 → a1 ≠ a2 →
        ClabManager.management_ipv4_subnet tid a1 ≠
          ClabManager.management_ipv4_subnet tid a2) := by
  constructor
  · intro a _
    refine ⟨64 + ((seed + (a : Int) * 9973) % 16384) / 256,
      ((seed + (a : Int) * 9973) % 16384) % 256, ?_, ?_, ?_, ?_,
      management_ipv4_subnet_eq tid seed h a⟩ <;> omega
  · intro a1 a2 _ _ hne heq
    rw [management_ipv4_subnet_eq tid seed h a1, management_ipv4_subnet_eq tid seed h a2] at heq
    have hs := subnet_str_inj _ _ (by omega) (by omega) (Option.some_inj.mp heq)
    have hz : ((seed + (a1 : Int) * 9973) - (seed + (a2 : Int) * 9973)) % 16384 = 0 :=
      Int.emod_eq_emod_iff_emod_sub_eq_zero.mp hs
    have hz2 : (((a1 : Int) - (a2 : Int)) * 9973) % 16384 = 0 := by
      have : (seed + (a1 : Int) * 9973) - (seed + (a2 : Int) * 9973) =
          ((a1 : Int) - (a2 : Int)) * 9973 := by ring
      rwa [this] at hz
    interval_cases a1 <;> interval_cases a2 <;> omega

/-- Witness for C5 at a concrete id. -/
theorem C5_management_subnets_witness :
    ClabManager.management_ipv4_subnet "deadbeef-1234" 0 ≠
      ClabManager.management_ipv4_subnet "deadbeef-1234" 1 :=
  (C5_management_subnets "deadbeef-1234" 3735928559 (by decide)).2 0 1 (by decide) (by decide)
    (by decide)

/-- Round trip: Python `int(str(n))` is `n` for a nonnegative integer. -/
theorem pyIntOfChars_natToChars (n : Nat) : pyIntOfChars (natToChars n) = some (n : Int) := by
  unfold pyIntOfChars
  rw [stripWs_digits _ (natToChars_digits n)]
  cases hl : natToChars n with
  | nil => exact absurd hl (natToChars_ne_nil n)
  | cons c rest =>
    have hmem : c ∈ natToChars n := by rw [hl]; exact List.mem_cons_self c rest
    obtain ⟨h1, h2⟩ := digit_not_dash (natToChars_digits n c hmem)
    simp only [h1, h2, if_false]
    rw [← hl, parseUD_natToChars]
    rfl


/-! ## Claims about `inspect`, the PTY relay, and the proxy -/

/-- C8 (counterexample).  `"[]"` is a well-formed engine reply that is not
the expected JSON shape, yet `inspect` raises (`data.get` on a list is an
uncaught `AttributeError`) instead of returning the empty container list. -/
theorem C8_inspect_counterexample :
    ClabManager.inspect 0 "[]" = Except.error "AttributeError" := rfl

/-- C8 (amended).  `inspect` returns `[]` on non-zero exit and on stdout that
is not parseable JSON; a parsed JSON object yields its `containers` member
(`[]` when absent, whatever its shape); parsed non-object JSON raises
`AttributeError`. -/
theorem C8_inspect_amended (rc : Int) (stdout : String) :
    (rc ≠ 0 → ClabManager.inspect rc stdout = Except.ok (Json.jarr [])) ∧
    (rc = 0 → json_loads stdout = Except.error () →
      ClabManager.inspect rc stdout = Except.ok (Json.jarr [])) ∧
    (∀ kvs, rc = 0 → json_loads stdout = Except.ok (Json.jobj kvs) →
      ClabManager.inspect rc stdout = Except.ok (lookupD kvs "containers" (Json.jarr []))) ∧
    (∀ j, rc = 0 → json_loads stdout = Except.ok j → (∀ kvs, j ≠ Json.jobj kvs) →
      ClabManager.inspect rc stdout = Except.error "AttributeError") := by
  refine ⟨?_, ?_, ?_, ?_⟩
  · intro h
    simp [ClabManager.inspect, h]
  · intro h hj
    simp [ClabManager.inspect, h, hj]
  · intro kvs h hj
    simp [ClabManager.inspect, h, hj]
  · intro j h hj hne
    cases j with
    | jobj kvs => exact absurd rfl (hne kvs)
    | null => simp [ClabManager.inspect, h, hj]
    | jbool b => simp [ClabManager.inspect, h, hj]
    | jnum v => simp [ClabManager.inspect, h, hj]
    | jstr s => simp [ClabManager.inspect, h, hj]
    | jarr es => simp [ClabManager.inspect, h, hj]

/-- Witness for C8 (amended) at concrete engine replies. -/
theorem C8_inspect_amended_witness :
    ClabManager.inspect 1 "garbage" = Except.ok (Json.jarr []) ∧
    ClabManager.inspect 0 "\x7b\"other\": 1\x7d" =
      Except.ok (lookupD [("other", Json.jnum 1)] "containers" (Json.jarr [])) :=
  ⟨(C8_inspect_amended 1 "garbage").1 (by decide),
   (C8_inspect_amended 0 "\x7b\"other\": 1\x7d").2.2.1 [("other", Json.jnum 1)] rfl rfl⟩

/-- C9 (counterexample).  `resizeBadColsMsg` parses as a JSON object with
type `resize`, yet the writer writes it verbatim to the PTY (the inner
`int("abc")` raises `ValueError`, which falls through to `os.write`); and the
valid-JSON message `"[1]"` terminates the writer task instead of being
written, dropping subsequent messages. -/
theorem C9_pty_counterexample :
    json_loads resizeBadColsMsg =
      Except.ok (Json.jobj [("type", Json.jstr "resize"), ("cols", Json.jstr "abc"),
        ("rows", Json.jnum 40)]) ∧
    PtyRelay._write_pty_step resizeBadColsMsg = PtyRelay.PtyAction.write resizeBadColsMsg ∧
    PtyRelay._write_pty ["[1]", "next"] = [PtyRelay.PtyAction.crash] :=
  ⟨rfl, rfl, rfl⟩

/-- C9 (amended).  A message that parses as a JSON object with type `resize`
and integer-convertible `cols`/`rows` resizes the window (lower bound 1,
packed rows-then-cols) and is consumed; a resize-typed object whose `cols`
(or `rows`) fails integer conversion is written verbatim, as is any
non-resize object or non-JSON message; a message parsing to non-object JSON
terminates the writer loop; and on every non-crash action the writer
continues with the remaining messages. -/
theorem C9_pty_amended (message : String) (ms : List String) :
    (∀ kvs c r, json_loads message = Except.ok (Json.jobj kvs) →
      getKey kvs "type" = some (Json.jstr "resize") →
      PtyRelay.pyIntOfJson (lookupD kvs "cols" (Json.jnum 80)) = some c →
      PtyRelay.pyIntOfJson (lookupD kvs "rows" (Json.jnum 24)) = some r →
      PtyRelay._write_pty_step message = PtyRelay.PtyAction.resize (max 1 r) (max 1 c)) ∧
    (∀ kvs, json_loads message = Except.ok (Json.jobj kvs) →
      (getKey kvs "type" ≠ some (Json.jstr "resize") ∨
       PtyRelay.pyIntOfJson (lookupD kvs "cols" (Json.jnum 80)) = none ∨
       PtyRelay.pyIntOfJson (lookupD kvs "rows" (Json.jnum 24)) = none) →
      PtyRelay._write_pty_step message = PtyRelay.PtyAction.write message) ∧
    (json_loads message = Except.error () →
      PtyRelay._write_pty_step message = PtyRelay.PtyAction.write message) ∧
    (∀ j, json_loads message = Except.ok j → (∀ kvs, j ≠ Json.jobj kvs) →
      PtyRelay._write_pty (message :: ms) = [PtyRelay.PtyAction.crash]) ∧
    (PtyRelay._write_pty_step message ≠ PtyRelay.PtyAction.crash →
      PtyRelay._write_pty (message :: ms) =
        PtyRelay._write_pty_step message :: PtyRelay._write_pty ms) := by
  refine ⟨?_, ?_, ?_, ?_, ?_⟩
  · intro kvs c r hj hty hc hr
    simp [PtyRelay._write_pty_step, PtyRelay.isResizeType, hj, hty, hc, hr]
  · intro kvs hj hbad
    rcases hbad with hty | hc | hr
    · have hcond : PtyRelay.isResizeType kvs = false := by
        unfold PtyRelay.isResizeType
        rcases hk : getKey kvs "type" with - | jv
        · rfl
        · cases jv with
          | jstr s =>
            have hs : s ≠ "resize" := fun hs => hty (by rw [hk, hs])
            simp [hs]
          | null => rfl
          | jbool b => rfl
          | jnum v => rfl
          | jarr es => rfl
          | jobj f => rfl
      simp [PtyRelay._write_pty_step, hj, hcond]
    · by_cases hcond : PtyRelay.isResizeType kvs <;>
        simp [PtyRelay._write_pty_step, hj, hcond, hc]
    · by_cases hcond : PtyRelay.isResizeType kvs
      · rcases hc : PtyRelay.pyIntOfJson (lookupD kvs "cols" (Json.jnum 80)) with - | c <;>
          simp [PtyRelay._write_pty_step, hj, hcond, hc, hr]
      · simp [PtyRelay._write_pty_step, hj, hcond]
  · intro hj
    simp [PtyRelay._write_pty_step, hj]
  · intro j hj hne
    cases j with
    | jobj kvs => exact absurd rfl (hne kvs)
    | null => simp [PtyRelay._write_pty, PtyRelay._write_pty_step, hj]
    | jbool b => simp [PtyRelay._write_pty, PtyRelay._write_pty_step, hj]
    | jnum v => simp [PtyRelay._write_pty, PtyRelay._write_pty_step, hj]
    | jstr s => simp [PtyRelay._write_pty, PtyRelay._write_pty_step, hj]
    | jarr es => simp [PtyRelay._write_pty, PtyRelay._write_pty_step, hj]
  · intro h
    cases hstep : PtyRelay._write_pty_step message with
    | crash => exact absurd hstep h
    | resize r c => simp [PtyRelay._write_pty, hstep]
    | write m => simp [PtyRelay._write_pty, hstep]

/-- Witness for C9 (amended): the S5 resize frame resizes; a plain command
line is written raw and the writer continues. -/
theorem C9_pty_amended_witness :
    PtyRelay._write_pty_step resizeMsg = PtyRelay.PtyAction.resize (max 1 40) (max 1 132) ∧
    PtyRelay._write_pty ["ls"] = [PtyRelay.PtyAction.write "ls"] := by
  constructor
  · exact (C9_pty_amended resizeMsg []).1
      [("type", Json.jstr "resize"), ("cols", Json.jnum 132), ("rows", Json.jnum 40)]
      132 40 rfl rfl rfl rfl
  · have h1 := (C9_pty_amended "ls" []).2.2.1 rfl
    have h2 := (C9_pty_amended "ls" []).2.2.2.2 (by rw [h1]; decide)
    rw [h2, h1]
    rfl

/-- Unfolding of the deploy loop at an empty attempt list. -/
theorem deployLoop_nil_eq (tid path net : String) (runs : Nat → ClabManager.RunResult)
    (ci : Nat) (last : String) (log : List (List String)) :
    ClabManager.deployLoop tid path net runs [] ci last log =
      ⟨log, Except.error ("containerlab deploy failed:\n" ++ last)⟩ := rfl

/-- Unfolding of the deploy loop at a remaining attempt. -/
theorem deployLoop_cons_eq (tid path net : String) (runs : Nat → ClabManager.RunResult)
    (a : Nat) (rest : List Nat) (ci : Nat) (last : String) (log : List (List String)) :
    ClabManager.deployLoop tid path net runs (a :: rest) ci last log =
      ClabManager.deployBody path net runs a ci log
        (ClabManager.management_ipv4_subnet tid a)
        (ClabManager.management_ipv6_subnet tid a)
        (fun ci2 stderr log2 =>
          ClabManager.deployLoop tid path net runs rest ci2 stderr log2) := rfl

theorem deployIter_stop_log (path net : String) (a : Nat) (r : ClabManager.RunResult)
    (ipv4 ipv6 : String) (log : List (List String)) (res : ClabManager.DeployResult)
    (h : ClabManager.deployIter path net a r ipv4 ipv6 log = .stop res) :
    ∃ suf, res.cmds = log ++ suf := by
  simp only [ClabManager.deployIter] at h
  by_cases h1 : r.rc = 0
  · rw [if_pos h1] at h
    injection h with h
    subst h
    exact ⟨_, rfl⟩
  · rw [if_neg h1] at h
    by_cases h2 : ClabManager.staleBridgeError r.stderr = true
    · rw [if_pos h2] at h
      exact absurd h (by simp)
    · rw [if_neg h2] at h
      by_cases h3 : ClabManager.overlapError r.stderr = true ∧ a < 3
      · rw [if_pos h3] at h
        exact absurd h (by simp)
      · rw [if_neg h3] at h
        injection h with h
        subst h
        exact ⟨_, rfl⟩

theorem deployIter_nextTwo_log (path net : String) (a : Nat) (r : ClabManager.RunResult)
    (ipv4 ipv6 : String) (log : List (List String)) (e : String) (log2 : List (List String))
    (h : ClabManager.deployIter path net a r ipv4 ipv6 log = .nextTwo e log2) :
    log2 = log ++ [ClabManager.deploy_cmd path net ipv4 ipv6, ClabManager.network_rm_cmd net] := by
  simp only [ClabManager.deployIter] at h
  by_cases h1 : r.rc = 0
  · rw [if_pos h1] at h
    exact absurd h (by simp)
  · rw [if_neg h1] at h
    by_cases h2 : ClabManager.staleBridgeError r.stderr = true
    · rw [if_pos h2] at h
      injection h with h h'
      rw [← h']
      simp
    · rw [if_neg h2] at h
      by_cases h3 : ClabManager.overlapError r.stderr = true ∧ a < 3
      · rw [if_pos h3] at h
        exact absurd h (by simp)
      · rw [if_neg h3] at h
        exact absurd h (by simp)

theorem deployIter_nextOne_log (path net : String) (a : Nat) (r : ClabManager.RunResult)
    (ipv4 ipv6 : String) (log : List (List String)) (e : String) (log2 : List (List String))
    (h : ClabManager.deployIter path net a r ipv4 ipv6 log = .nextOne e log2) :
    log2 = log ++ [ClabManager.deploy_cmd path net ipv4 ipv6] := by
  simp only [ClabManager.deployIter] at h
  by_cases h1 : r.rc = 0
  · rw [if_pos h1] at h
    exact absurd h (by simp)
  · rw [if_neg h1] at h
    by_cases h2 : ClabManager.staleBridgeError r.stderr = true
    · rw [if_pos h2] at h
      exact absurd h (by simp)
    · rw [if_neg h2] at h
      by_cases h3 : ClabManager.overlapError r.stderr = true ∧ a < 3
      · rw [if_pos h3] at h
        injection h with h h'
        rw [← h']
      · rw [if_neg h3] at h
        exact absurd h (by simp)

/-- Every command logged by `deployLoop` extends the incoming log. -/
theorem deployLoop_cmds_prefix (tid path net : String) (runs : Nat → ClabManager.RunResult) :
    ∀ (attempts : List Nat) (ci : Nat) (last : String) (log : List (List String)),
    ∃ suf, (ClabManager.deployLoop tid path net runs attempts ci last log).cmds = log ++ suf := by
  intro attempts
  induction attempts with
  | nil =>
    intro ci last log
    exact ⟨[], by rw [deployLoop_nil_eq]; simp⟩
  | cons a rest ih =>
    intro ci last log
    rw [deployLoop_cons_eq]
    rcases h4 : ClabManager.management_ipv4_subnet tid a with - | ipv4
    · exact ⟨[], by simp [ClabManager.deployBody, h4]⟩
    · rcases h6 : ClabManager.management_ipv6_subnet tid a with - | ipv6
      · exact ⟨[], by simp [ClabManager.deployBody, h4, h6]⟩
      · simp only [ClabManager.deployBody]
        cases hi : ClabManager.deployIter path net a (runs ci) ipv4 ipv6 log with
        | stop res => exact deployIter_stop_log path net a (runs ci) ipv4 ipv6 log res hi
        | nextTwo e log2 =>
          have hlog := deployIter_nextTwo_log path net a (runs ci) ipv4 ipv6 log e log2 hi
          obtain ⟨suf, hsuf⟩ := ih (ci + 2) e log2
          refine ⟨[ClabManager.deploy_cmd path net ipv4 ipv6,
            ClabManager.network_rm_cmd net] ++ suf, ?_⟩
          rw [hsuf, hlog]
          simp
        | nextOne e log2 =>
          have hlog := deployIter_nextOne_log path net a (runs ci) ipv4 ipv6 log e log2 hi
          obtain ⟨suf, hsuf⟩ := ih (ci + 1) e log2
          refine ⟨[ClabManager.deploy_cmd path net ipv4 ipv6] ++ suf, ?_⟩
          rw [hsuf, hlog]
          simp

/-- With at least one attempt left, the first newly logged command is that
attempt's deploy command. -/
theorem deployLoop_cmds_cons (tid path net : String) (runs : Nat → ClabManager.RunResult)
    (a : Nat) (rest : List Nat) (ci : Nat) (last : String) (log : List (List String))
    (ipv4 ipv6 : String)
    (h4 : ClabManager.management_ipv4_subnet tid a = some ipv4)
    (h6 : ClabManager.management_ipv6_subnet tid a = some ipv6) :
    ∃ suf, (ClabManager.deployLoop tid path net runs (a :: rest) ci last log).cmds =
      log ++ [ClabManager.deploy_cmd path net ipv4 ipv6] ++ suf := by
  rw [deployLoop_cons_eq, h4, h6]
  simp only [ClabManager.deployBody]
  cases hi : ClabManager.deployIter path net a (runs ci) ipv4 ipv6 log with
  | stop res =>
    simp only [ClabManager.deployIter] at hi
    by_cases h1 : (runs ci).rc = 0
    · rw [if_pos h1] at hi
      injection hi with hi
      subst hi
      exact ⟨[], by simp⟩
    · rw [if_neg h1] at hi
      by_cases h2 : ClabManager.staleBridgeError (runs ci).stderr = true
      · rw [if_pos h2] at hi
        exact absurd hi (by simp)
      · rw [if_neg h2] at hi
        by_cases h3 : ClabManager.overlapError (runs ci).stderr = true ∧ a < 3
        · rw [if_pos h3] at hi
          exact absurd hi (by simp)
        · rw [if_neg h3] at hi
          injection hi with hi
          subst hi
          exact ⟨[], by simp⟩
  | nextTwo e log2 =>
    have hlog := deployIter_nextTwo_log path net a (runs ci) ipv4 ipv6 log e log2 hi
    obtain ⟨suf, hsuf⟩ := deployLoop_cmds_prefix tid path net runs rest (ci + 2) e log2
    refine ⟨[ClabManager.network_rm_cmd net] ++ suf, ?_⟩
    rw [hsuf, hlog]
    simp
  | nextOne e log2 =>
    have hlog := deployIter_nextOne_log path net a (runs ci) ipv4 ipv6 log e log2 hi
    obtain ⟨suf, hsuf⟩ := deployLoop_cmds_prefix tid path net runs rest (ci + 1) e log2
    refine ⟨suf, ?_⟩
    rw [hsuf, hlog]

/-- C3 (counterexample).  With a stale-bridge failure on attempt 0, the
driver removes the network and retries — but the retried deploy command
carries the attempt-1 management subnets, which differ from the attempt-0
ones: the stale-bridge retry does advance the attempt counter. -/
theorem C3_stale_counterexample :
    (ClabManager.deploy "deadbeef-1234" "/work" true c3Runs).cmds =
      [ClabManager.deploy_cmd "/work/deadbeef-1234.clab.yml" "ae3gis-mgmt-deadbeef"
         "100.126.239.0/24" "3fff:100:126:239::/64",
       ClabManager.network_rm_cmd "ae3gis-mgmt-deadbeef",
       ClabManager.deploy_cmd "/work/deadbeef-1234.clab.yml" "ae3gis-mgmt-deadbeef"
         "100.101.228.0/24" "3fff:100:101:228::/64"] ∧
    ClabManager.management_ipv4_subnet "deadbeef-1234" 0 ≠
      ClabManager.management_ipv4_subnet "deadbeef-1234" 1 :=
  ⟨rfl, by decide⟩

/-- C3 (amended).  On a stale-bridge failure the driver removes the stale
docker network object and retries the deploy, but the retry consumes the
next loop iteration: the second deploy command is built from attempt index 1
(management subnets of attempt 1, not attempt 0). -/
theorem C3_stale_bridge_retry (tid workdir : String) (runs : Nat → ClabManager.RunResult)
    (seed : Int) (hseed : ClabManager._mgmt_seed tid = some seed)
    (hrc : ¬((runs 0).rc = 0))
    (hst : ClabManager.staleBridgeError (runs 0).stderr = true) :
    (ClabManager.deploy tid workdir true runs).cmds.take 3 =
      [ClabManager.deploy_cmd (ClabManager._yaml_path workdir tid)
          (ClabManager.management_network_name tid)
          ((ClabManager.management_ipv4_subnet tid 0).getD "")
          ((ClabManager.management_ipv6_subnet tid 0).getD ""),
       ClabManager.network_rm_cmd (ClabManager.management_network_name tid),
       ClabManager.deploy_cmd (ClabManager._yaml_path workdir tid)
          (ClabManager.management_network_name tid)
          ((ClabManager.management_ipv4_subnet tid 1).getD "")
          ((ClabManager.management_ipv6_subnet tid 1).getD "")] := by
  have hs40 : (ClabManager.management_ipv4_subnet tid 0).isSome := by
    simp [ClabManager.management_ipv4_subnet, hseed]
  have hs60 : (ClabManager.management_ipv6_subnet tid 0).isSome := by
    simp [ClabManager.management_ipv6_subnet, hseed]
  have hs41 : (ClabManager.management_ipv4_subnet tid 1).isSome := by
    simp [ClabManager.management_ipv4_subnet, hseed]
  have hs61 : (ClabManager.management_ipv6_subnet tid 1).isSome := by
    simp [ClabManager.management_ipv6_subnet, hseed]
  obtain ⟨v40, h40⟩ := Option.isSome_iff_exists.mp hs40
  obtain ⟨v60, h60⟩ := Option.isSome_iff_exists.mp hs60
  obtain ⟨v41, h41⟩ := Option.isSome_iff_exists.mp hs41
  obtain ⟨v61, h61⟩ := Option.isSome_iff_exists.mp hs61
  unfold ClabManager.deploy
  rw [if_neg (by simp)]
  rw [deployLoop_cons_eq, h40, h60]
  simp only [ClabManager.deployBody]
  have hiter : ClabManager.deployIter (ClabManager._yaml_path workdir tid)
      (ClabManager.management_network_name tid) 0 (runs 0) v40 v60 [] =
      .nextTwo (runs 0).stderr
        (([] ++ [ClabManager.deploy_cmd (ClabManager._yaml_path workdir tid)
            (ClabManager.management_network_name tid) v40 v60]) ++
          [ClabManager.network_rm_cmd (ClabManager.management_network_name tid)]) := by
    simp only [ClabManager.deployIter]
    rw [if_neg hrc, if_pos hst]
  rw [hiter]
  obtain ⟨suf, hsuf⟩ := deployLoop_cmds_cons tid (ClabManager._yaml_path workdir tid)
    (ClabManager.management_network_name tid) runs 1 [2, 3] 2 (runs 0).stderr
    (([] ++ [ClabManager.deploy_cmd (ClabManager._yaml_path workdir tid)
        (ClabManager.management_network_name tid) v40 v60]) ++
      [ClabManager.network_rm_cmd (ClabManager.management_network_name tid)])
    v41 v61 h41 h61
  rw [hsuf]
  simp [List.take, h41, h61]

/-- Witness for C3 (amended) at the concrete stale-bridge oracle. -/
theorem C3_stale_bridge_retry_witness :
    (ClabManager.deploy "deadbeef-1234" "/work" true c3Runs).cmds.take 3 =
      [ClabManager.deploy_cmd (ClabManager._yaml_path "/work" "deadbeef-1234")
          (ClabManager.management_network_name "deadbeef-1234")
          ((ClabManager.management_ipv4_subnet "deadbeef-1234" 0).getD "")
          ((ClabManager.management_ipv6_subnet "deadbeef-1234" 0).getD ""),
       ClabManager.network_rm_cmd (ClabManager.management_network_name "deadbeef-1234"),
       ClabManager.deploy_cmd (ClabManager._yaml_path "/work" "deadbeef-1234")
          (ClabManager.management_network_name "deadbeef-1234")
          ((ClabManager.management_ipv4_subnet "deadbeef-1234" 1).getD "")
          ((ClabManager.management_ipv6_subnet "deadbeef-1234" 1).getD "")] :=
  C3_stale_bridge_retry "deadbeef-1234" "/work" c3Runs 3735928559 (by decide) (by decide)
    (by decide)

/-- C10.  In the reverse proxy, every non-zero `docker inspect` exit — for
any stderr whatsoever, including permission errors — yields the 404
"not found in deployment" reply, and the 502 no-IP reply implies the inspect
succeeded, the container reported running, and the parsed IP list was
empty. -/
theorem C10_proxy_decision (container_id : String) (rc : Int) (stdout : String) :
    (rc ≠ 0 → Proxy.proxy_decision container_id rc stdout =
      Proxy.ProxyOutcome.httpError 404
        ("Container " ++ container_id ++ " not found in deployment")) ∧
    (∀ d, Proxy.proxy_decision container_id rc stdout =
        Proxy.ProxyOutcome.httpError 502 d →
      rc = 0 ∧
      ClabManager.pyLower ((pySplitOn (Proxy.pyStrip stdout) "|").headD "") = "true" ∧
      ((pySplitOn (Proxy.pyStrip stdout) "|").drop 1).filter (fun p => decide (p ≠ "")) = []) := by
  constructor
  · intro h
    simp [Proxy.proxy_decision, h]
  · intro d h
    by_cases hrc : rc = 0
    · subst hrc
      unfold Proxy.proxy_decision at h
      rw [if_neg (by simp)] at h
      rcases hp : pySplitOn (Proxy.pyStrip stdout) "|" with - | ⟨p0, ps⟩ <;> rw [hp] at h
      · simp at h
      · by_cases hrun : ClabManager.pyLower p0 = "true"
        · simp only [hrun, decide_True] at h
          rw [if_neg (by simp)] at h
          rcases hips : (ps.filter (fun p => decide (p ≠ ""))) with - | ⟨ip, ips⟩ <;>
            rw [show ((p0 :: ps).drop 1) = ps from rfl, hips] at h
          · refine ⟨rfl, ?_, ?_⟩
            · simpa using hrun
            · simpa using hips
          · simp at h
        · exfalso
          simp [hrun] at h
    · exfalso
      unfold Proxy.proxy_decision at h
      rw [if_pos hrc] at h
      simp at h

/-! ## Lemmas about the topology compiler -/

open ClabGenerator

theorem getKey_setK_isSome {κ α : Type} [DecidableEq κ] (m : List (κ × α)) (k k' : κ) (v : α)
    (h : (getKey (setK m k v) k').isSome = true) :
    (getKey m k').isSome = true ∨ k' = k := by
  by_cases hk : k' = k
  · right
    exact hk
  · left
    rwa [getKey_setK_ne _ _ _ _ hk] at h

/-- Keys present after a fold of updates come from the start map or from the
keys written by the step function. -/
theorem foldl_keys_sub {κ α β : Type} [DecidableEq κ]
    (F : List (κ × α) → β → List (κ × α)) (f : β → κ)
    (hF : ∀ m x k, (getKey (F m x) k).isSome = true → (getKey m k).isSome = true ∨ k = f x) :
    ∀ (xs : List β) (m : List (κ × α)) (k : κ),
    (getKey (xs.foldl F m) k).isSome = true → (getKey m k).isSome = true ∨ k ∈ xs.map f := by
  intro xs
  induction xs with
  | nil =>
    intro m k h
    exact Or.inl h
  | cons x xs ih =>
    intro m k h
    rcases ih (F m x) k h with h' | h'
    · rcases hF m x k h' with h'' | h''
      · exact Or.inl h''
      · exact Or.inr (by simp [h''])
    · exact Or.inr (by simp [h'])

/-- Same, where each step may write a set of keys. -/
theorem foldl_keys_sub_list {κ α β : Type} [DecidableEq κ]
    (F : List (κ × α) → β → List (κ × α)) (f : β → List κ)
    (hF : ∀ m x k, (getKey (F m x) k).isSome = true → (getKey m k).isSome = true ∨ k ∈ f x) :
    ∀ (xs : List β) (m : List (κ × α)) (k : κ),
    (getKey (xs.foldl F m) k).isSome = true →
      (getKey m k).isSome = true ∨ ∃ x ∈ xs, k ∈ f x := by
  intro xs
  induction xs with
  | nil =>
    intro m k h
    exact Or.inl h
  | cons x xs ih =>
    intro m k h
    rcases ih (F m x) k h with h' | h'
    · rcases hF m x k h' with h'' | h''
      · exact Or.inl h''
      · exact Or.inr ⟨x, by simp, h''⟩
    · obtain ⟨x', hx', hk⟩ := h'
      exact Or.inr ⟨x', by simp [hx'], hk⟩

theorem step1Subnet_keys (m : ClabGenerator.Meta) (sn : ClabGenerator.Subnet) (cid : String)
    (h : (getKey (step1Subnet m sn).container_info cid).isSome = true) :
    (getKey m.container_info cid).isSome = true ∨
      cid ∈ sn.containers.map (fun c => pys c.id) := by
  simp only [ClabGenerator.step1Subnet] at h
  split_ifs at h <;>
    exact foldl_keys_sub _ (fun c => pys c.id)
      (fun m x k hh => getKey_setK_isSome _ _ _ _ hh) sn.containers _ cid h

/-- Key tracking through a fold on an arbitrary state with a projected map. -/
theorem foldl_proj_keys {σ β : Type} {κ : Type} {α : Type} [DecidableEq κ]
    (F : σ → β → σ) (proj : σ → List (κ × α)) (f : β → List κ)
    (hF : ∀ s x k, (getKey (proj (F s x)) k).isSome = true →
      (getKey (proj s) k).isSome = true ∨ k ∈ f x) :
    ∀ (xs : List β) (s : σ) (k : κ),
    (getKey (proj (xs.foldl F s)) k).isSome = true →
      (getKey (proj s) k).isSome = true ∨ ∃ x ∈ xs, k ∈ f x := by
  intro xs
  induction xs with
  | nil =>
    intro s k h
    exact Or.inl h
  | cons x xs ih =>
    intro s k h
    rcases ih (F s x) k h with h' | h'
    · rcases hF s x k h' with h'' | h''
      · exact Or.inl h''
      · exact Or.inr ⟨x, by simp, h''⟩
    · obtain ⟨x', hx', hk⟩ := h'
      exact Or.inr ⟨x', by simp [hx'], hk⟩

theorem step1Site_keys (m : ClabGenerator.Meta) (site : ClabGenerator.Site) (cid : String)
    (h : (getKey (step1Site m site).container_info cid).isSome = true) :
    (getKey m.container_info cid).isSome = true ∨
      ∃ sn ∈ site.subnets, cid ∈ sn.containers.map (fun c => pys c.id) := by
  simp only [ClabGenerator.step1Site] at h
  have main := foldl_proj_keys step1Subnet
    (fun (mm : ClabGenerator.Meta) => mm.container_info)
    (fun sn => sn.containers.map (fun c => pys c.id))
    (fun mm sn k hh => step1Subnet_keys mm sn k hh)
    site.subnets _ cid h
  rcases main with h' | h'
  · left
    split_ifs at h' <;> exact h'
  · exact Or.inr h'

theorem step1_keys (t : ClabGenerator.TopologyData) (cid : String)
    (h : (getKey (step1 t).container_info cid).isSome = true) :
    cid ∈ containerIds t := by
  simp only [ClabGenerator.step1] at h
  have main := foldl_proj_keys step1Site
    (fun (mm : ClabGenerator.Meta) => mm.container_info)
    (fun site => site.subnets.flatMap (fun sn => sn.containers.map (fun c => pys c.id)))
    (fun mm site k hh => by
      rcases step1Site_keys mm site k hh with h' | ⟨sn, hsn, hk⟩
      · exact Or.inl h'
      · exact Or.inr (List.mem_flatMap.mpr ⟨sn, hsn, hk⟩))
    t.sites ClabGenerator.emptyMeta cid h
  rcases main with h' | ⟨site, hsite, hk⟩
  · simp [ClabGenerator.emptyMeta] at h'
  · rw [List.mem_flatMap] at hk
    obtain ⟨sn, hsn, hk⟩ := hk
    rw [List.mem_map] at hk
    obtain ⟨c, hc, rfl⟩ := hk
    unfold ClabGenerator.containerIds ClabGenerator.allContainers
    rw [List.mem_map]
    refine ⟨c, ?_, rfl⟩
    rw [List.mem_flatMap]
    exact ⟨site, hsite, List.mem_flatMap.mpr ⟨sn, hsn, hc⟩⟩

/-- Value characterization of a fold of keyed updates whose written value
depends only on the key. -/
theorem foldl_setK_fun {κ α β : Type} [DecidableEq κ] (f : β → κ) (g : κ → α) :
    ∀ (xs : List β) (m : List (κ × α)) (k : κ),
    getKey (xs.foldl (fun m x => setK m (f x) (g (f x))) m) k =
      if k ∈ xs.map f then some (g k) else getKey m k := by
  intro xs
  induction xs with
  | nil =>
    intro m k
    simp
  | cons x xs ih =>
    intro m k
    rw [List.foldl_cons, ih]
    by_cases h1 : k ∈ xs.map f
    · simp [h1]
    · simp only [h1, if_false]
      by_cases h2 : k = f x
      · rw [h2, getKey_setK_self]
        simp
      · rw [getKey_setK_ne _ _ _ _ h2]
        have hmem : ¬ k ∈ (x :: xs).map f := by
          rw [List.map_cons, List.mem_cons]
          push_neg
          exact ⟨h2, h1⟩
        rw [if_neg hmem]

/-- The node map is exactly: one node per container id, whose value is
`buildNode` of that id. -/
theorem getKey_step4 (env : ClabGenerator.Env) (s3 : ClabGenerator.Step3State)
    (ifmap : List (String × List String)) (t : ClabGenerator.TopologyData) (cid : String) :
    getKey (step4 env s3 ifmap t) cid =
      if cid ∈ containerIds t then some (buildNode env s3 ifmap cid) else none := by
  unfold ClabGenerator.step4
  rw [foldl_setK_fun (fun c => pys c.id) (fun k => buildNode env s3 ifmap k)
    (allContainers t) [] cid]
  rfl

theorem resolve_conn_links (st : ClabGenerator.LinkState) (f t : String)
    (fiOpt tiOpt : Option String) :
    (ClabGenerator._resolve_conn st f t fiOpt tiOpt).1.links = st.links := by
  simp only [ClabGenerator._resolve_conn, ClabGenerator._register_explicit,
    ClabGenerator._next_iface]
  split_ifs <;> rfl

theorem resolve_conn_registry (st : ClabGenerator.LinkState) (f t : String)
    (fiOpt tiOpt : Option String) :
    (ClabGenerator._resolve_conn st f t fiOpt tiOpt).1.link_registry = st.link_registry := by
  simp only [ClabGenerator._resolve_conn, ClabGenerator._register_explicit,
    ClabGenerator._next_iface]
  split_ifs <;> rfl

/-- `_add_link` keeps links and registry in lockstep and only registers
resolved endpoints that are present in `container_info`. -/
theorem add_link_good (env : ClabGenerator.Env) (st : ClabGenerator.LinkState)
    (conn : ClabGenerator.Connection)
    (h1 : st.links = st.link_registry.map regLink)
    (h2 : ∀ e ∈ st.link_registry, (getKey env.container_info e.from_id).isSome = true ∧
      (getKey env.container_info e.to_id).isSome = true) :
    (ClabGenerator._add_link env st conn).links =
      (ClabGenerator._add_link env st conn).link_registry.map regLink ∧
    ∀ e ∈ (ClabGenerator._add_link env st conn).link_registry,
      (getKey env.container_info e.from_id).isSome = true ∧
      (getKey env.container_info e.to_id).isSome = true := by
  simp only [ClabGenerator._add_link]
  rcases hf : ClabGenerator._resolve_endpoint env (pyOrOpt conn.fromContainer conn.from_) with
    - | f
  · exact ⟨h1, h2⟩
  · rcases ht : ClabGenerator._resolve_endpoint env (pyOrOpt conn.toContainer conn.to_) with
      - | t
    · exact ⟨h1, h2⟩
    · by_cases hmem : (getKey env.container_info f).isSome = true ∧
        (getKey env.container_info t).isSome = true
      · dsimp only
        rw [if_pos hmem]
        constructor
        · simp only [resolve_conn_links, resolve_conn_registry, List.map_append, h1]
          rfl
        · intro e he
          simp only [resolve_conn_registry, List.mem_append, List.mem_singleton] at he
          rcases he with he | he
          · exact h2 e he
          · rw [he]
            exact hmem
      · dsimp only
        rw [if_neg hmem]
        exact ⟨h1, h2⟩

/-- Pass-2 invariants at the final state. -/
theorem pass2_good (env : ClabGenerator.Env) (t : ClabGenerator.TopologyData)
    (g1 : ClabGenerator.GenState) :
    (pass2 env t g1).links = (pass2 env t g1).link_registry.map regLink ∧
    ∀ e ∈ (pass2 env t g1).link_registry,
      (getKey env.container_info e.from_id).isSome = true ∧
      (getKey env.container_info e.to_id).isSome = true := by
  have main : ∀ (conns : List ClabGenerator.Connection) (st : ClabGenerator.LinkState),
      (st.links = st.link_registry.map regLink ∧
        ∀ e ∈ st.link_registry, (getKey env.container_info e.from_id).isSome = true ∧
          (getKey env.container_info e.to_id).isSome = true) →
      ((conns.foldl (ClabGenerator._add_link env) st).links =
        (conns.foldl (ClabGenerator._add_link env) st).link_registry.map regLink ∧
        ∀ e ∈ (conns.foldl (ClabGenerator._add_link env) st).link_registry,
          (getKey env.container_info e.from_id).isSome = true ∧
          (getKey env.container_info e.to_id).isSome = true) := by
    intro conns
    induction conns with
    | nil => intro st h; exact h
    | cons c cs ih =>
      intro st h
      exact ih _ (add_link_good env st c h.1 h.2)
  exact main (allConnections t) (initLinkState g1) ⟨rfl, by simp [ClabGenerator.initLinkState]⟩

/-- C4.  Every link of a compiled descriptor has exactly two endpoints, and
both endpoint container ids are keys of the node map. -/
theorem C4_links_reference_nodes (t : ClabGenerator.TopologyData) (out : ClabGenerator.GenOut)
    (h : generate_clab_yaml t = Except.ok out) :
    ∀ link ∈ out.links, ∃ e, e ∈ out.link_registry ∧ link = regLink e ∧ link.length = 2 ∧
      (getKey out.nodes e.from_id).isSome = true ∧ (getKey out.nodes e.to_id).isSome = true := by
  unfold ClabGenerator.generate_clab_yaml at h
  split_ifs at h
  cases h
  intro link hlink
  have hgood := pass2_good (envOf t) t (pass1Of t)
  have hlinks : (generateCore t).links = (pass2 (envOf t) t (pass1Of t)).links := rfl
  rw [hlinks, hgood.1] at hlink
  rw [List.mem_map] at hlink
  obtain ⟨e, he, rfl⟩ := hlink
  refine ⟨e, he, rfl, rfl, ?_, ?_⟩
  · have hsome := (hgood.2 e he).1
    have hmem := step1_keys t e.from_id hsome
    have hn := getKey_step4 (envOf t) (step3Of t) (pass2Of t).container_ifaces t e.from_id
    rw [if_pos hmem] at hn
    show (getKey (step4 (envOf t) (step3Of t) (pass2Of t).container_ifaces t)
      e.from_id).isSome = true
    rw [hn]
    rfl
  · have hsome := (hgood.2 e he).2
    have hmem := step1_keys t e.to_id hsome
    have hn := getKey_step4 (envOf t) (step3Of t) (pass2Of t).container_ifaces t e.to_id
    rw [if_pos hmem] at hn
    show (getKey (step4 (envOf t) (step3Of t) (pass2Of t).container_ifaces t)
      e.to_id).isSome = true
    rw [hn]
    rfl

/-- Witness for C4 at the concrete two-router topology. -/
theorem C4_links_reference_nodes_witness :
    ∃ e, e ∈ (generateCore wTopo).link_registry ∧
      (["R1:eth1", "R2:eth1"] : List String) = regLink e ∧
      (["R1:eth1", "R2:eth1"] : List String).length = 2 ∧
      (getKey (generateCore wTopo).nodes e.from_id).isSome = true ∧
      (getKey (generateCore wTopo).nodes e.to_id).isSome = true :=
  C4_links_reference_nodes wTopo (generateCore wTopo) rfl ["R1:eth1", "R2:eth1"] (by decide)

/-- Witness for C10 at a concrete failed inspect and a concrete running
container with no IPs. -/
theorem C10_proxy_decision_witness :
    Proxy.proxy_decision "c1" 1 "x" =
      Proxy.ProxyOutcome.httpError 404 ("Container " ++ "c1" ++ " not found in deployment") ∧
    ((0 : Int) = 0 ∧
      ClabManager.pyLower ((pySplitOn (Proxy.pyStrip "true||") "|").headD "") = "true" ∧
      ((pySplitOn (Proxy.pyStrip "true||") "|").drop 1).filter (fun p => decide (p ≠ "")) = []) :=
  ⟨(C10_proxy_decision "c1" 1 "x").1 (by decide),
   (C10_proxy_decision "c1" 0 "true||").2
     ("Container " ++ "c1" ++ " does not have a valid management IP") (by rfl)⟩


/-- Claimed shape of every switch command: one shell invocation. -/
theorem switchCmd1_shape (l : String) :
    ∃ r, ClabGenerator.switchCmd1 l = "sh -lc " ++ r := ⟨_, rfl⟩

theorem switchCmd2_shape (ip pfx fi : String) :
    ∃ r, ClabGenerator.switchCmd2 ip pfx fi = "sh -lc " ++ r := ⟨_, rfl⟩

/-- C1 counterexample: a container dict without an `"id"` key makes the
compiler raise `KeyError` at `container_info[c["id"]]` instead of producing a
degraded descriptor. -/
theorem C1_totality_counterexample :
    generate_clab_yaml noIdTopo = Except.error "KeyError" := rfl

/-- C1 (amended).  On every topology whose container dicts all carry an
`"id"` key the compiler succeeds, every container appears as a node, every
registered link endpoint resolves to a known container (unresolved endpoints
are dropped before registration), and a non-router non-switch node with no
IP and no gateway gets an empty exec list. -/
theorem C1_totality_amended (t : ClabGenerator.TopologyData)
    (h : hasMissingContainerId t = false) :
    ∃ out, generate_clab_yaml t = Except.ok out ∧
      (∀ cid ∈ containerIds t, (getKey out.nodes cid).isSome = true) ∧
      (∀ e ∈ out.link_registry,
        (getKey (envOf t).container_info e.from_id).isSome = true ∧
        (getKey (envOf t).container_info e.to_id).isSome = true) ∧
      (∀ cid n, getKey out.nodes cid = some n →
        (lookupD (envOf t).container_info cid defaultCInfo).ctype ∉
          ClabGenerator._SWITCH_TYPES →
        (lookupD (envOf t).container_info cid defaultCInfo).ctype ∉
          ClabGenerator._ROUTER_TYPES →
        (lookupD (envOf t).container_info cid defaultCInfo).ip = "" →
        (lookupD (envOf t).container_info cid defaultCInfo).gateway = "" →
        n.exec = []) := by
  refine ⟨generateCore t, ?_, ?_, ?_, ?_⟩
  · simp [ClabGenerator.generate_clab_yaml, h]
  · intro cid hcid
    have hn := getKey_step4 (envOf t) (step3Of t) (pass2Of t).container_ifaces t cid
    rw [if_pos hcid] at hn
    show (getKey (step4 (envOf t) (step3Of t) (pass2Of t).container_ifaces t) cid).isSome = true
    rw [hn]
    rfl
  · intro e he
    exact (pass2_good (envOf t) t (pass1Of t)).2 e he
  · intro cid n hn hsw hro hip hgw
    have hk := getKey_step4 (envOf t) (step3Of t) (pass2Of t).container_ifaces t cid
    by_cases hmem : cid ∈ containerIds t
    · rw [if_pos hmem] at hk
      have hsome : some (buildNode (envOf t) (step3Of t) (pass2Of t).container_ifaces cid) =
          some n := hk.symm.trans hn
      injection hsome with hbn
      rw [← hbn]
      simp only [ClabGenerator.buildNode]
      unfold ClabGenerator.buildExec
      rw [if_neg hsw, if_neg hro, if_neg (fun hc => hc.1 hip),
        if_neg (fun hc => hc hgw)]
      rfl
    · rw [if_neg hmem] at hk
      exact Option.noConfusion (hk.symm.trans hn)

/-- C1 witness at the two-router topology: the compiler succeeds and the
amended guarantees hold. -/
theorem C1_totality_amended_witness :
    hasMissingContainerId wTopo = false ∧
    (∃ out, generate_clab_yaml wTopo = Except.ok out ∧
      (∀ cid ∈ containerIds wTopo, (getKey out.nodes cid).isSome = true) ∧
      (∀ e ∈ out.link_registry,
        (getKey (envOf wTopo).container_info e.from_id).isSome = true ∧
        (getKey (envOf wTopo).container_info e.to_id).isSome = true) ∧
      (∀ cid n, getKey out.nodes cid = some n →
        (lookupD (envOf wTopo).container_info cid defaultCInfo).ctype ∉
          ClabGenerator._SWITCH_TYPES →
        (lookupD (envOf wTopo).container_info cid defaultCInfo).ctype ∉
          ClabGenerator._ROUTER_TYPES →
        (lookupD (envOf wTopo).container_info cid defaultCInfo).ip = "" →
        (lookupD (envOf wTopo).container_info cid defaultCInfo).gateway = "" →
        n.exec = [])) :=
  ⟨rfl, C1_totality_amended wTopo rfl⟩

/-- C7 counterexample: the switch `SW` (type switch, with an IP) compiles to
an exec list of TWO commands (bridge setup, then the IP fallback command),
not a single shell invocation. -/
theorem C7_switch_counterexample :
    (getKey (generateCore swTopo).nodes "SW").map (fun n => n.exec.length) = some 2 ∧
    (lookupD (envOf swTopo).container_info "SW" defaultCInfo).ctype = "switch" :=
  ⟨rfl, rfl⟩

/-- C7 (amended).  A switch node's exec list has at most two entries — at
most one when the switch has no IP — and every entry is a single shell
invocation `sh -lc ...`. -/
theorem C7_switch_exec_amended (t : ClabGenerator.TopologyData) (cid : String)
    (n : ClabGenerator.NodeCfg)
    (hn : getKey (generateCore t).nodes cid = some n)
    (hsw : (lookupD (envOf t).container_info cid defaultCInfo).ctype ∈
      ClabGenerator._SWITCH_TYPES) :
    n.exec.length ≤ 2 ∧
    ((lookupD (envOf t).container_info cid defaultCInfo).ip = "" → n.exec.length ≤ 1) ∧
    (∀ cmd ∈ n.exec, ∃ r, cmd = "sh -lc " ++ r) := by
  have hk := getKey_step4 (envOf t) (step3Of t) (pass2Of t).container_ifaces t cid
  by_cases hmem : cid ∈ containerIds t
  · rw [if_pos hmem] at hk
    have hsome : some (buildNode (envOf t) (step3Of t) (pass2Of t).container_ifaces cid) =
        some n := hk.symm.trans hn
    injection hsome with hbn
    rw [← hbn]
    simp only [ClabGenerator.buildNode]
    unfold ClabGenerator.buildExec
    rw [if_pos hsw]
    rcases hif : sortIfaces (lookupD (pass2Of t).container_ifaces cid []) with - | ⟨fi, rest⟩
    · exact ⟨by simp, fun _ => by simp, by simp⟩
    · dsimp only
      by_cases hip : (lookupD (envOf t).container_info cid defaultCInfo).ip = ""
      · rw [if_neg (fun hc => hc hip)]
        refine ⟨by simp, fun _ => by simp, ?_⟩
        intro cmd hcmd
        simp only [List.append_nil, List.mem_singleton] at hcmd
        rw [hcmd]
        exact switchCmd1_shape _
      · rw [if_pos hip]
        refine ⟨by simp, fun hc => absurd hc hip, ?_⟩
        intro cmd hcmd
        simp only [List.cons_append, List.nil_append, List.mem_cons,
          List.mem_singleton] at hcmd
        rcases hcmd with hcmd | hcmd | hcmd
        · rw [hcmd]
          exact switchCmd1_shape _
        · rw [hcmd]
          exact switchCmd2_shape _ _ _
        · cases hcmd
  · rw [if_neg hmem] at hk
    exact Option.noConfusion (hk.symm.trans hn)

/-- C7 witness at the switch topology: the `SW` node satisfies the amended
bounds (two commands, both single shell invocations). -/
theorem C7_switch_exec_amended_witness :
    getKey (generateCore swTopo).nodes "SW" =
      some ((getKey (generateCore swTopo).nodes "SW").getD ⟨"", "", []⟩) ∧
    (lookupD (envOf swTopo).container_info "SW" defaultCInfo).ctype ∈
      ClabGenerator._SWITCH_TYPES ∧
    (((getKey (generateCore swTopo).nodes "SW").getD ⟨"", "", []⟩).exec.length ≤ 2 ∧
     ((lookupD (envOf swTopo).container_info "SW" defaultCInfo).ip = "" →
       ((getKey (generateCore swTopo).nodes "SW").getD ⟨"", "", []⟩).exec.length ≤ 1) ∧
     (∀ cmd ∈ ((getKey (generateCore swTopo).nodes "SW").getD ⟨"", "", []⟩).exec,
       ∃ r, cmd = "sh -lc " ++ r)) :=
  ⟨rfl, by decide,
   C7_switch_exec_amended swTopo "SW" _ rfl (by decide)⟩


/-! ### Step-3 point-to-point lemmas (C2) -/

theorem mem_insertIface (x y : String) (l : List String) :
    y ∈ ClabGenerator._insertIface x l ↔ y = x ∨ y ∈ l := by
  induction l with
  | nil => simp [ClabGenerator._insertIface]
  | cons a as ih =>
    simp only [ClabGenerator._insertIface]
    split_ifs <;>
      simp only [List.mem_cons, ih] <;>
      tauto

theorem mem_sortIfaces_aux (l : List String) :
    ∀ (acc : List String) (y : String),
      y ∈ l.foldl (fun a x => ClabGenerator._insertIface x a) acc ↔ y ∈ acc ∨ y ∈ l := by
  induction l with
  | nil =>
    intro acc y
    simp
  | cons a as ih =>
    intro acc y
    rw [List.foldl_cons, ih, mem_insertIface]
    simp only [List.mem_cons]
    tauto

theorem mem_sortIfaces (l : List String) (y : String) :
    y ∈ sortIfaces l ↔ y ∈ l := by
  rw [ClabGenerator.sortIfaces, mem_sortIfaces_aux]
  simp

theorem lookupD_addIface_mono (m : List (String × List String)) (cid ifc cid0 x : String)
    (h : x ∈ lookupD m cid0 []) : x ∈ lookupD (addIface m cid ifc) cid0 [] := by
  simp only [addIface]
  split_ifs with hmem
  · exact h
  · by_cases hc : cid0 = cid
    · subst hc
      rw [lookupD_setK_self]
      exact List.mem_append_left _ h
    · rw [lookupD_setK_ne _ _ _ _ _ hc]
      exact h

theorem lookupD_addIface_self (m : List (String × List String)) (cid ifc : String) :
    ifc ∈ lookupD (addIface m cid ifc) cid [] := by
  simp only [addIface]
  split_ifs with hmem
  · exact hmem
  · rw [lookupD_setK_self]
    exact List.mem_append_right _ (List.mem_singleton.mpr rfl)

theorem next_iface_ifaces_mono (st : ClabGenerator.LinkState) (cid cid0 x : String)
    (h : x ∈ lookupD st.container_ifaces cid0 []) :
    x ∈ lookupD (ClabGenerator._next_iface st cid).1.container_ifaces cid0 [] := by
  simp only [ClabGenerator._next_iface]
  exact lookupD_addIface_mono _ _ _ _ _ h

theorem next_iface_self (st : ClabGenerator.LinkState) (cid : String) :
    (ClabGenerator._next_iface st cid).2 ∈
      lookupD (ClabGenerator._next_iface st cid).1.container_ifaces cid [] := by
  simp only [ClabGenerator._next_iface]
  exact lookupD_addIface_self _ _ _

theorem register_explicit_ifaces_mono (st : ClabGenerator.LinkState) (cid ifc cid0 x : String)
    (h : x ∈ lookupD st.container_ifaces cid0 []) :
    x ∈ lookupD (ClabGenerator._register_explicit st cid ifc).container_ifaces cid0 [] := by
  simp only [ClabGenerator._register_explicit]
  exact lookupD_addIface_mono _ _ _ _ _ h

theorem register_explicit_self (st : ClabGenerator.LinkState) (cid ifc : String) :
    ifc ∈ lookupD (ClabGenerator._register_explicit st cid ifc).container_ifaces cid [] := by
  simp only [ClabGenerator._register_explicit]
  exact lookupD_addIface_self _ _ _

theorem resolve_conn_ifaces_mono (st : ClabGenerator.LinkState) (f t : String)
    (fiOpt tiOpt : Option String) (cid0 x : String)
    (h : x ∈ lookupD st.container_ifaces cid0 []) :
    x ∈ lookupD (ClabGenerator._resolve_conn st f t fiOpt tiOpt).1.container_ifaces cid0 [] := by
  simp only [ClabGenerator._resolve_conn]
  split_ifs <;>
    solve_by_elim [register_explicit_ifaces_mono, next_iface_ifaces_mono]

theorem resolve_conn_fi (st : ClabGenerator.LinkState) (f t : String)
    (fiOpt tiOpt : Option String) :
    (ClabGenerator._resolve_conn st f t fiOpt tiOpt).2.1 ∈
      lookupD (ClabGenerator._resolve_conn st f t fiOpt tiOpt).1.container_ifaces f [] := by
  simp only [ClabGenerator._resolve_conn]
  by_cases h1 : truthy fiOpt = true
  · by_cases h2 : truthy tiOpt = true
    · simp only [if_pos h1, if_pos h2]
      exact register_explicit_ifaces_mono _ _ _ _ _ (register_explicit_self _ _ _)
    · simp only [if_pos h1, if_neg h2]
      exact register_explicit_self _ _ _
  · by_cases h2 : truthy tiOpt = true
    · simp only [if_pos h2, if_neg h1]
      exact register_explicit_ifaces_mono _ _ _ _ _ (next_iface_self _ _)
    · simp only [if_neg h1, if_neg h2]
      exact next_iface_ifaces_mono _ _ _ _ (next_iface_self _ _)

theorem resolve_conn_ti (st : ClabGenerator.LinkState) (f t : String)
    (fiOpt tiOpt : Option String) :
    (ClabGenerator._resolve_conn st f t fiOpt tiOpt).2.2 ∈
      lookupD (ClabGenerator._resolve_conn st f t fiOpt tiOpt).1.container_ifaces t [] := by
  simp only [ClabGenerator._resolve_conn]
  by_cases h1 : truthy fiOpt = true
  · by_cases h2 : truthy tiOpt = true
    · simp only [if_pos h1, if_pos h2]
      exact register_explicit_self _ _ _
    · simp only [if_pos h1, if_neg h2]
      exact register_explicit_ifaces_mono _ _ _ _ _ (next_iface_self _ _)
  · by_cases h2 : truthy tiOpt = true
    · simp only [if_pos h2, if_neg h1]
      exact register_explicit_self _ _ _
    · simp only [if_neg h1, if_neg h2]
      exact next_iface_self _ _

theorem add_link_ifaces (env : ClabGenerator.Env) (st : ClabGenerator.LinkState)
    (conn : ClabGenerator.Connection)
    (h : ∀ e ∈ st.link_registry, e.fi ∈ lookupD st.container_ifaces e.from_id [] ∧
      e.ti ∈ lookupD st.container_ifaces e.to_id []) :
    ∀ e ∈ (ClabGenerator._add_link env st conn).link_registry,
      e.fi ∈ lookupD (ClabGenerator._add_link env st conn).container_ifaces e.from_id [] ∧
      e.ti ∈ lookupD (ClabGenerator._add_link env st conn).container_ifaces e.to_id [] := by
  simp only [ClabGenerator._add_link]
  rcases hf : ClabGenerator._resolve_endpoint env (pyOrOpt conn.fromContainer conn.from_) with
    - | f
  · exact h
  · rcases ht : ClabGenerator._resolve_endpoint env (pyOrOpt conn.toContainer conn.to_) with
      - | t
    · exact h
    · dsimp only
      by_cases hmem : (getKey env.container_info f).isSome = true ∧
        (getKey env.container_info t).isSome = true
      · rw [if_pos hmem]
        intro e he
        simp only [List.mem_append, List.mem_singleton] at he
        rw [resolve_conn_registry] at he
        rcases he with he | he
        · obtain ⟨h1', h2'⟩ := h e he
          exact ⟨resolve_conn_ifaces_mono _ _ _ _ _ _ _ h1',
            resolve_conn_ifaces_mono _ _ _ _ _ _ _ h2'⟩
        · subst he
          exact ⟨resolve_conn_fi _ _ _ _ _, resolve_conn_ti _ _ _ _ _⟩
      · rw [if_neg hmem]
        exact h

theorem pass2_ifaces (env : ClabGenerator.Env) (t : ClabGenerator.TopologyData)
    (g1 : ClabGenerator.GenState) :
    ∀ e ∈ (pass2 env t g1).link_registry,
      e.fi ∈ lookupD (pass2 env t g1).container_ifaces e.from_id [] ∧
      e.ti ∈ lookupD (pass2 env t g1).container_ifaces e.to_id [] := by
  have main : ∀ (conns : List ClabGenerator.Connection) (st : ClabGenerator.LinkState),
      (∀ e ∈ st.link_registry, e.fi ∈ lookupD st.container_ifaces e.from_id [] ∧
        e.ti ∈ lookupD st.container_ifaces e.to_id []) →
      ∀ e ∈ (conns.foldl (ClabGenerator._add_link env) st).link_registry,
        e.fi ∈ lookupD (conns.foldl (ClabGenerator._add_link env) st).container_ifaces
          e.from_id [] ∧
        e.ti ∈ lookupD (conns.foldl (ClabGenerator._add_link env) st).container_ifaces
          e.to_id [] := by
    intro conns
    induction conns with
    | nil => intro st h; exact h
    | cons c cs ih =>
      intro st h
      exact ih _ (add_link_ifaces env st c h)
  exact main (allConnections t) (initLinkState g1) (by simp [ClabGenerator.initLinkState])

theorem step3Link_seq (env : ClabGenerator.Env) (s : ClabGenerator.Step3State)
    (e : ClabGenerator.RegEntry) :
    (ClabGenerator.step3Link env s e).ptp_seq =
      if ClabGenerator.isCross env e then s.ptp_seq + 1 else s.ptp_seq := by
  simp only [ClabGenerator.step3Link]
  split_ifs <;> rfl

theorem step3_seq_aux (env : ClabGenerator.Env) (l : List ClabGenerator.RegEntry) :
    ∀ s : ClabGenerator.Step3State,
      (l.foldl (ClabGenerator.step3Link env) s).ptp_seq =
        s.ptp_seq + ClabGenerator.countCross env l := by
  induction l with
  | nil =>
    intro s
    simp [ClabGenerator.countCross]
  | cons a as ih =>
    intro s
    rw [List.foldl_cons, ih, step3Link_seq]
    by_cases h : ClabGenerator.isCross env a <;>
      simp [ClabGenerator.countCross, List.countP_cons, h] <;>
      omega

theorem lookupD_routes_setK_mono {α : Type} [DecidableEq α]
    (m : List (α × List (String × String))) (cid cid' : α) (x r : String × String)
    (h : r ∈ lookupD m cid []) :
    r ∈ lookupD (setK m cid' (lookupD m cid' [] ++ [x])) cid [] := by
  by_cases hc : cid = cid'
  · subst hc
    rw [lookupD_setK_self]
    exact List.mem_append_left _ h
  · rw [lookupD_setK_ne _ _ _ _ _ hc]
    exact h

theorem step3Link_routes_mono (env : ClabGenerator.Env) (s : ClabGenerator.Step3State)
    (e : ClabGenerator.RegEntry) (cid : String) (r : String × String)
    (h : r ∈ lookupD s.ptp_routes cid []) :
    r ∈ lookupD (ClabGenerator.step3Link env s e).ptp_routes cid [] := by
  simp only [ClabGenerator.step3Link]
  split_ifs <;>
    solve_by_elim [lookupD_routes_setK_mono]

theorem step3_routes_mono_aux (env : ClabGenerator.Env) (l : List ClabGenerator.RegEntry)
    (cid : String) (r : String × String) :
    ∀ s : ClabGenerator.Step3State, r ∈ lookupD s.ptp_routes cid [] →
      r ∈ lookupD (l.foldl (ClabGenerator.step3Link env) s).ptp_routes cid [] := by
  induction l with
  | nil =>
    intro s h
    exact h
  | cons a as ih =>
    intro s h
    rw [List.foldl_cons]
    exact ih _ (step3Link_routes_mono env s a cid r h)

theorem step3Link_iface_pres (env : ClabGenerator.Env) (s : ClabGenerator.Step3State)
    (e : ClabGenerator.RegEntry) (p : String × String) (h : ¬ ClabGenerator.touches e p) :
    getKey (ClabGenerator.step3Link env s e).iface_ips p = getKey s.iface_ips p := by
  have h1 : p ≠ (e.from_id, e.fi) := fun hh => h (Or.inl hh.symm)
  have h2 : p ≠ (e.to_id, e.ti) := fun hh => h (Or.inr hh.symm)
  simp only [ClabGenerator.step3Link]
  split_ifs <;>
    simp [getKey_setK_ne _ _ _ _ h1, getKey_setK_ne _ _ _ _ h2]

theorem step3_iface_pres_aux (env : ClabGenerator.Env) (l : List ClabGenerator.RegEntry)
    (p : String × String) (h : ∀ e ∈ l, ¬ ClabGenerator.touches e p) :
    ∀ s : ClabGenerator.Step3State,
      getKey (l.foldl (ClabGenerator.step3Link env) s).iface_ips p = getKey s.iface_ips p := by
  induction l with
  | nil =>
    intro s
    rfl
  | cons a as ih =>
    intro s
    rw [List.foldl_cons, ih (fun e he => h e (List.mem_cons_of_mem a he)),
      step3Link_iface_pres env s a p (h a (List.mem_cons_self a as))]

theorem cross_ne_ids (env : ClabGenerator.Env) (e : ClabGenerator.RegEntry)
    (hc : ClabGenerator.isCross env e) : e.from_id ≠ e.to_id := by
  intro hh
  exact hc.1 (by rw [hh])

theorem step3Link_cross (env : ClabGenerator.Env) (s : ClabGenerator.Step3State)
    (e : ClabGenerator.RegEntry) (hc : ClabGenerator.isCross env e) :
    getKey (ClabGenerator.step3Link env s e).iface_ips (e.from_id, e.fi) =
      some ((ClabGenerator._next_ptp s.ptp_seq).1, "30") ∧
    getKey (ClabGenerator.step3Link env s e).iface_ips (e.to_id, e.ti) =
      some ((ClabGenerator._next_ptp s.ptp_seq).2.1, "30") ∧
    (((getKey env.container_info e.to_id).getD ClabGenerator.defaultCInfo).subnet_cidr ≠ "" →
      (((getKey env.container_info e.to_id).getD ClabGenerator.defaultCInfo).subnet_cidr,
        (ClabGenerator._next_ptp s.ptp_seq).2.1) ∈
        lookupD (ClabGenerator.step3Link env s e).ptp_routes e.from_id []) ∧
    (((getKey env.container_info e.from_id).getD ClabGenerator.defaultCInfo).subnet_cidr ≠ "" →
      (((getKey env.container_info e.from_id).getD ClabGenerator.defaultCInfo).subnet_cidr,
        (ClabGenerator._next_ptp s.ptp_seq).1) ∈
        lookupD (ClabGenerator.step3Link env s e).ptp_routes e.to_id []) := by
  have hid : e.from_id ≠ e.to_id := cross_ne_ids env e hc
  have hp1 : ((e.from_id, e.fi) : String × String) ≠ (e.to_id, e.ti) := by
    intro hh
    exact hid (congrArg Prod.fst hh)
  simp only [ClabGenerator.step3Link]
  rw [if_pos hc]
  refine ⟨?_, ?_, ?_, ?_⟩
  · split_ifs <;>
      simp [getKey_setK_ne _ _ _ _ hp1, getKey_setK_self, ClabGenerator._next_ptp]
  · split_ifs <;>
      simp [getKey_setK_self, ClabGenerator._next_ptp]
  · intro hts
    rw [if_pos hts]
    split_ifs with hfs
    · rw [lookupD_setK_ne _ _ _ _ _ hid, lookupD_setK_self]
      exact List.mem_append_right _ (List.mem_singleton.mpr rfl)
    · rw [lookupD_setK_self]
      exact List.mem_append_right _ (List.mem_singleton.mpr rfl)
  · intro hfs
    rw [if_pos hfs]
    split_ifs with hts
    · rw [lookupD_setK_self]
      exact List.mem_append_right _ (List.mem_singleton.mpr rfl)
    · rw [lookupD_setK_self]
      exact List.mem_append_right _ (List.mem_singleton.mpr rfl)

theorem router_not_switch (c : String) (h : c ∈ ClabGenerator._ROUTER_TYPES) :
    c ∉ ClabGenerator._SWITCH_TYPES := by
  intro hs
  simp only [ClabGenerator._SWITCH_TYPES, List.mem_singleton] at hs
  subst hs
  revert h
  decide


theorem buildExec_router (info : ClabGenerator.CInfo) (ifaces : List String) (cid : String)
    (s3 : ClabGenerator.Step3State) (hro : info.ctype ∈ ClabGenerator._ROUTER_TYPES) :
    buildExec info ifaces cid s3 =
      ["sysctl -w net.ipv4.ip_forward=1"] ++
      ifaces.filterMap (fun iface =>
        (getKey s3.iface_ips (cid, iface)).map (fun ripfx =>
          "ip addr add " ++ ripfx.1 ++ "/" ++ ripfx.2 ++ " dev " ++ iface)) ++
      (lookupD s3.ptp_routes cid []).map
        (fun dv => "ip route add " ++ dv.1 ++ " via " ++ dv.2) := by
  unfold ClabGenerator.buildExec
  rw [if_neg (router_not_switch _ hro), if_pos hro]

theorem node_router_exec (t : ClabGenerator.TopologyData) (cid : String)
    (n : ClabGenerator.NodeCfg)
    (hn : getKey (generateCore t).nodes cid = some n)
    (hro : (lookupD (envOf t).container_info cid ClabGenerator.defaultCInfo).ctype ∈
      ClabGenerator._ROUTER_TYPES) :
    n.exec =
      ["sysctl -w net.ipv4.ip_forward=1"] ++
      (sortIfaces (lookupD (pass2Of t).container_ifaces cid [])).filterMap (fun iface =>
        (getKey (step3Of t).iface_ips (cid, iface)).map (fun ripfx =>
          "ip addr add " ++ ripfx.1 ++ "/" ++ ripfx.2 ++ " dev " ++ iface)) ++
      (lookupD (step3Of t).ptp_routes cid []).map
        (fun dv => "ip route add " ++ dv.1 ++ " via " ++ dv.2) := by
  have hk := getKey_step4 (envOf t) (step3Of t) (pass2Of t).container_ifaces t cid
  by_cases hmem : cid ∈ containerIds t
  · rw [if_pos hmem] at hk
    have hsome : some (buildNode (envOf t) (step3Of t) (pass2Of t).container_ifaces cid) =
        some n := hk.symm.trans hn
    injection hsome with hbn
    rw [← hbn]
    simp only [ClabGenerator.buildNode]
    exact buildExec_router _ _ _ _ hro
  · rw [if_neg hmem] at hk
    exact Option.noConfusion (hk.symm.trans hn)


/-- C2 counterexample: on `c2Topo` the single registry entry is a cross-subnet
router link and gets the /30 pair, but the peer subnet of R2 has no CIDR, so
R1 records NO static route: its boot commands are just the sysctl and the
address assignment, with no `ip route add` at all. -/
theorem C2_ptp_counterexample :
    (generateCore c2Topo).link_registry = [⟨"R1", "eth1", "R2", "eth1"⟩] ∧
    ClabGenerator.isCross (envOf c2Topo) ⟨"R1", "eth1", "R2", "eth1"⟩ ∧
    getKey (generateCore c2Topo).iface_ips ("R1", "eth1") = some ("10.255.0.1", "30") ∧
    lookupD (generateCore c2Topo).ptp_routes "R1" [] = [] ∧
    (getKey (generateCore c2Topo).nodes "R1").map (fun n => n.exec) =
      some ["sysctl -w net.ipv4.ip_forward=1", "ip addr add 10.255.0.1/30 dev eth1"] :=
  ⟨rfl, by decide, rfl, rfl, rfl⟩

/-- C2 (amended).  The Nth cross-subnet router↔router registry entry (N
cross entries precede it) receives the /30 pair 10.255.0.(4N+1) /
10.255.0.(4N+2) with prefix 30 on its two (container, interface) keys —
provided no later registry entry writes those keys again — and a static
route to the peer's subnet CIDR via the peer's PtP address is recorded and
emitted into the node's boot commands ONLY when that peer CIDR is
non-empty. -/
theorem C2_ptp_amended (t : ClabGenerator.TopologyData)
    (pre post : List ClabGenerator.RegEntry) (e : ClabGenerator.RegEntry)
    (hreg : (generateCore t).link_registry = pre ++ e :: post)
    (hcross : ClabGenerator.isCross (envOf t) e)
    (hfin : ∀ e2 ∈ post, ¬ ClabGenerator.touches e2 (e.from_id, e.fi))
    (htin : ∀ e2 ∈ post, ¬ ClabGenerator.touches e2 (e.to_id, e.ti)) :
    getKey (generateCore t).iface_ips (e.from_id, e.fi) =
      some ((ClabGenerator._next_ptp (countCross (envOf t) pre)).1, "30") ∧
    getKey (generateCore t).iface_ips (e.to_id, e.ti) =
      some ((ClabGenerator._next_ptp (countCross (envOf t) pre)).2.1, "30") ∧
    (((getKey (envOf t).container_info e.to_id).getD ClabGenerator.defaultCInfo).subnet_cidr ≠
        "" →
      (((getKey (envOf t).container_info e.to_id).getD ClabGenerator.defaultCInfo).subnet_cidr,
        (ClabGenerator._next_ptp (countCross (envOf t) pre)).2.1) ∈
        lookupD (generateCore t).ptp_routes e.from_id []) ∧
    (((getKey (envOf t).container_info e.from_id).getD ClabGenerator.defaultCInfo).subnet_cidr ≠
        "" →
      (((getKey (envOf t).container_info e.from_id).getD ClabGenerator.defaultCInfo).subnet_cidr,
        (ClabGenerator._next_ptp (countCross (envOf t) pre)).1) ∈
        lookupD (generateCore t).ptp_routes e.to_id []) ∧
    (∀ nf, getKey (generateCore t).nodes e.from_id = some nf →
      ("ip addr add " ++ (ClabGenerator._next_ptp (countCross (envOf t) pre)).1 ++ "/" ++
        "30" ++ " dev " ++ e.fi) ∈ nf.exec ∧
      (((getKey (envOf t).container_info e.to_id).getD
          ClabGenerator.defaultCInfo).subnet_cidr ≠ "" →
        ("ip route add " ++
          ((getKey (envOf t).container_info e.to_id).getD
            ClabGenerator.defaultCInfo).subnet_cidr ++
          " via " ++ (ClabGenerator._next_ptp (countCross (envOf t) pre)).2.1) ∈ nf.exec)) ∧
    (∀ nt, getKey (generateCore t).nodes e.to_id = some nt →
      ("ip addr add " ++ (ClabGenerator._next_ptp (countCross (envOf t) pre)).2.1 ++ "/" ++
        "30" ++ " dev " ++ e.ti) ∈ nt.exec ∧
      (((getKey (envOf t).container_info e.from_id).getD
          ClabGenerator.defaultCInfo).subnet_cidr ≠ "" →
        ("ip route add " ++
          ((getKey (envOf t).container_info e.from_id).getD
            ClabGenerator.defaultCInfo).subnet_cidr ++
          " via " ++ (ClabGenerator._next_ptp (countCross (envOf t) pre)).1) ∈ nt.exec)) := by
  have hreg2 : (pass2Of t).link_registry = pre ++ e :: post := hreg
  have hemem : e ∈ (pass2Of t).link_registry := by
    rw [hreg2]
    exact List.mem_append_right _ (List.mem_cons_self _ _)
  have hs3 : step3Of t = (e :: post).foldl (ClabGenerator.step3Link (envOf t))
      (pre.foldl (ClabGenerator.step3Link (envOf t)) ⟨[], [], [], 0⟩) := by
    show ClabGenerator.step3 (envOf t) (pass2Of t).link_registry = _
    rw [hreg2]
    unfold ClabGenerator.step3
    rw [List.foldl_append]
  have hseq : (pre.foldl (ClabGenerator.step3Link (envOf t))
      (⟨[], [], [], 0⟩ : ClabGenerator.Step3State)).ptp_seq = countCross (envOf t) pre := by
    rw [step3_seq_aux]
    simp
  have hAt := step3Link_cross (envOf t)
    (pre.foldl (ClabGenerator.step3Link (envOf t)) ⟨[], [], [], 0⟩) e hcross
  rw [hseq] at hAt
  have hiff : getKey (step3Of t).iface_ips (e.from_id, e.fi) =
      some ((ClabGenerator._next_ptp (countCross (envOf t) pre)).1, "30") := by
    rw [hs3, List.foldl_cons, step3_iface_pres_aux (envOf t) post _ hfin]
    exact hAt.1
  have hift : getKey (step3Of t).iface_ips (e.to_id, e.ti) =
      some ((ClabGenerator._next_ptp (countCross (envOf t) pre)).2.1, "30") := by
    rw [hs3, List.foldl_cons, step3_iface_pres_aux (envOf t) post _ htin]
    exact hAt.2.1
  have hrf : ((getKey (envOf t).container_info e.to_id).getD
      ClabGenerator.defaultCInfo).subnet_cidr ≠ "" →
      (((getKey (envOf t).container_info e.to_id).getD
          ClabGenerator.defaultCInfo).subnet_cidr,
        (ClabGenerator._next_ptp (countCross (envOf t) pre)).2.1) ∈
        lookupD (step3Of t).ptp_routes e.from_id [] := by
    intro hne
    rw [hs3, List.foldl_cons]
    exact step3_routes_mono_aux _ post _ _ _ (hAt.2.2.1 hne)
  have hrt : ((getKey (envOf t).container_info e.from_id).getD
      ClabGenerator.defaultCInfo).subnet_cidr ≠ "" →
      (((getKey (envOf t).container_info e.from_id).getD
          ClabGenerator.defaultCInfo).subnet_cidr,
        (ClabGenerator._next_ptp (countCross (envOf t) pre)).1) ∈
        lookupD (step3Of t).ptp_routes e.to_id [] := by
    intro hne
    rw [hs3, List.foldl_cons]
    exact step3_routes_mono_aux _ post _ _ _ (hAt.2.2.2 hne)
  refine ⟨hiff, hift, hrf, hrt, ?_, ?_⟩
  · intro nf hn
    have hro : (lookupD (envOf t).container_info e.from_id
        ClabGenerator.defaultCInfo).ctype ∈ ClabGenerator._ROUTER_TYPES := hcross.2.1
    have hexec := node_router_exec t e.from_id nf hn hro
    have hmem_if : e.fi ∈ sortIfaces (lookupD (pass2Of t).container_ifaces e.from_id []) := by
      rw [mem_sortIfaces]
      exact (pass2_ifaces (envOf t) t (pass1Of t) e hemem).1
    constructor
    · rw [hexec]
      refine List.mem_append_left _ (List.mem_append_right _ ?_)
      rw [List.mem_filterMap]
      refine ⟨e.fi, hmem_if, ?_⟩
      rw [hiff]
      rfl
    · intro hne
      rw [hexec]
      refine List.mem_append_right _ ?_
      rw [List.mem_map]
      exact ⟨_, hrf hne, rfl⟩
  · intro nt hn
    have hro : (lookupD (envOf t).container_info e.to_id
        ClabGenerator.defaultCInfo).ctype ∈ ClabGenerator._ROUTER_TYPES := hcross.2.2
    have hexec := node_router_exec t e.to_id nt hn hro
    have hmem_if : e.ti ∈ sortIfaces (lookupD (pass2Of t).container_ifaces e.to_id []) := by
      rw [mem_sortIfaces]
      exact (pass2_ifaces (envOf t) t (pass1Of t) e hemem).2
    constructor
    · rw [hexec]
      refine List.mem_append_left _ (List.mem_append_right _ ?_)
      rw [List.mem_filterMap]
      refine ⟨e.ti, hmem_if, ?_⟩
      rw [hift]
      rfl
    · intro hne
      rw [hexec]
      refine List.mem_append_right _ ?_
      rw [List.mem_map]
      exact ⟨_, hrt hne, rfl⟩

/-- C2 witness at the two-router topology: the single (0th) cross link gets
10.255.0.1/10.255.0.2 with prefix 30, and R1's boot commands carry the
address and the static route to R2's subnet via 10.255.0.2. -/
theorem C2_ptp_amended_witness :
    ("10.1.0.0/24", "10.255.0.2") ∈ lookupD (generateCore wTopo).ptp_routes "R1" [] ∧
    getKey (generateCore wTopo).iface_ips ("R1", "eth1") = some ("10.255.0.1", "30") ∧
    getKey (generateCore wTopo).iface_ips ("R2", "eth1") = some ("10.255.0.2", "30") ∧
    ∀ nf, getKey (generateCore wTopo).nodes "R1" = some nf →
      "ip addr add 10.255.0.1/30 dev eth1" ∈ nf.exec ∧
      "ip route add 10.1.0.0/24 via 10.255.0.2" ∈ nf.exec := by
  have H := C2_ptp_amended wTopo [] [] ⟨"R1", "eth1", "R2", "eth1"⟩ rfl (by decide)
    (by simp) (by simp)
  exact ⟨H.2.2.1 (by decide), H.1, H.2.1,
    fun nf hn => ⟨(H.2.2.2.2.1 nf hn).1, (H.2.2.2.2.1 nf hn).2 (by decide)⟩⟩


/-! ### Auto-assignment versus explicitly claimed interfaces (C6) -/

theorem pyReplaceEth_no_e (l : List Char) (h : ∀ c ∈ l, c ≠ 'e') :
    ClabGenerator.pyReplaceEth l = l := by
  induction l with
  | nil => rfl
  | cons c rest ih =>
    rw [ClabGenerator.pyReplaceEth.eq_def]
    split
    next _ rest2 heq =>
      injection heq with h1 h2
      exact absurd h1 (h c (List.mem_cons_self c rest))
    next _ c2 rest2 _ heq =>
      injection heq with h1 h2
      subst h1
      subst h2
      rw [ih (fun x hx => h x (List.mem_cons_of_mem _ hx))]
    next _ heq =>
      cases heq

theorem digit_not_e {c : Char} (h : isDigitChar c = true) : c ≠ 'e' := by
  simp only [isDigitChar, decide_eq_true_eq] at h
  rcases h with h | h | h | h | h | h | h | h | h | h <;> subst h <;> decide

/-- Round trip: the auto-assigned name `"eth" ++ str n` indexes back to `n`. -/
theorem eth_index_roundtrip (n : Int) (hn : 0 ≤ n) :
    ClabGenerator._eth_index ("eth" ++ pyStrInt n) = n := by
  unfold ClabGenerator._eth_index
  have hd : ("eth" ++ pyStrInt n).data = 'e' :: 't' :: 'h' :: (pyStrInt n).data := rfl
  rw [hd]
  have hps : (pyStrInt n).data = natToChars n.toNat := by
    unfold pyStrInt
    rw [if_neg (by omega)]
  rw [hps]
  have hstep : ClabGenerator.pyReplaceEth ('e' :: 't' :: 'h' :: natToChars n.toNat) =
      ClabGenerator.pyReplaceEth (natToChars n.toNat) := rfl
  rw [hstep, pyReplaceEth_no_e _ (fun c hc => digit_not_e (natToChars_digits _ c hc)),
    pyIntOfChars_natToChars]
  show ((n.toNat : Int)) = n
  omega

theorem lookupD_addIface_ne (m : List (String × List String)) (cid ifc cid0 : String)
    (h : cid0 ≠ cid) : lookupD (addIface m cid ifc) cid0 [] = lookupD m cid0 [] := by
  simp only [addIface]
  split_ifs with hm
  · rfl
  · exact lookupD_setK_ne _ _ _ _ _ h

theorem mem_lookupD_addIface (m : List (String × List String)) (cid ifc x : String)
    (h : x ∈ lookupD (addIface m cid ifc) cid []) : x ∈ lookupD m cid [] ∨ x = ifc := by
  simp only [addIface] at h
  split_ifs at h with hm
  · exact Or.inl h
  · rw [lookupD_setK_self] at h
    rcases List.mem_append.mp h with h | h
    · exact Or.inl h
    · exact Or.inr (List.mem_singleton.mp h)

/-- The pass-1 high-water-mark invariant: counters are nonnegative and bound
the `_eth_index` of every claimed interface of the container. -/
def P1Inv (st : ClabGenerator.GenState) : Prop :=
  ∀ cid, 0 ≤ lookupD st.iface_counter cid 0 ∧
    ∀ ifc ∈ lookupD st.container_ifaces cid [],
      ClabGenerator._eth_index ifc ≤ lookupD st.iface_counter cid 0

theorem prereg_side_inv (st : ClabGenerator.GenState) (oid oifc : Option String)
    (h : P1Inv st) : P1Inv (ClabGenerator._prereg_side st oid oifc) := by
  rcases oid with - | cid0
  · exact h
  · simp only [ClabGenerator._prereg_side]
    split_ifs with hc
    · intro cid
      by_cases hq : cid = cid0
      · subst hq
        constructor
        · rw [lookupD_setK_self]
          exact le_trans (h cid).1 (le_max_left _ _)
        · intro ifc hifc
          rw [lookupD_setK_self]
          rcases mem_lookupD_addIface _ _ _ _ hifc with hm | hm
          · exact le_trans ((h cid).2 ifc hm) (le_max_left _ _)
          · rw [hm]
            exact le_max_right _ _
      · rw [lookupD_setK_ne _ _ _ _ _ hq, lookupD_addIface_ne _ _ _ _ hq]
        exact h cid
    · exact h

theorem pass1_inv (env : ClabGenerator.Env) (t : ClabGenerator.TopologyData) :
    P1Inv (pass1 env t) := by
  have main : ∀ (conns : List ClabGenerator.Connection) (st : ClabGenerator.GenState),
      P1Inv st → P1Inv (conns.foldl (ClabGenerator._preregister env) st) := by
    intro conns
    induction conns with
    | nil =>
      intro st h
      exact h
    | cons c cs ih =>
      intro st h
      refine ih _ ?_
      simp only [ClabGenerator._preregister]
      exact prereg_side_inv _ _ _ (prereg_side_inv _ _ _ h)
  refine main (allConnections t) ⟨[], []⟩ ?_
  intro cid
  exact ⟨le_refl 0, by simp [lookupD, getKey]⟩

/-- The pass-2 invariant relative to the pass-1 state `g1`: counters never
drop below pass-1 counters, and no logged auto-assignment collides with a
pass-1 claimed interface. -/
def P2Inv (g1 : ClabGenerator.GenState) (st : ClabGenerator.LinkState) : Prop :=
  (∀ cid, lookupD g1.iface_counter cid 0 ≤ lookupD st.iface_counter cid 0) ∧
  (∀ p ∈ st.auto_log, p.2 ∉ lookupD g1.container_ifaces p.1 [])

theorem next_iface_P2 (g1 : ClabGenerator.GenState) (st : ClabGenerator.LinkState)
    (cid : String) (hg : P1Inv g1) (h : P2Inv g1 st) :
    P2Inv g1 (ClabGenerator._next_iface st cid).1 := by
  simp only [ClabGenerator._next_iface]
  constructor
  · intro c
    by_cases hq : c = cid
    · subst hq
      rw [lookupD_setK_self]
      exact le_trans (h.1 c) (by omega)
    · rw [lookupD_setK_ne _ _ _ _ _ hq]
      exact h.1 c
  · intro p hp
    rcases List.mem_append.mp hp with hp | hp
    · exact h.2 p hp
    · rw [List.mem_singleton] at hp
      subst hp
      intro hmem
      have hle := (hg cid).2 _ hmem
      have h0 : (0 : Int) ≤ lookupD st.iface_counter cid 0 :=
        le_trans (hg cid).1 (h.1 cid)
      rw [eth_index_roundtrip _ (by omega)] at hle
      have hmono := h.1 cid
      omega

theorem register_explicit_P2 (g1 : ClabGenerator.GenState) (st : ClabGenerator.LinkState)
    (cid ifc : String) (h : P2Inv g1 st) :
    P2Inv g1 (ClabGenerator._register_explicit st cid ifc) := by
  simp only [ClabGenerator._register_explicit]
  constructor
  · intro c
    by_cases hq : c = cid
    · subst hq
      rw [lookupD_setK_self]
      exact le_trans (h.1 c) (le_max_left _ _)
    · rw [lookupD_setK_ne _ _ _ _ _ hq]
      exact h.1 c
  · exact h.2

theorem resolve_conn_P2 (g1 : ClabGenerator.GenState) (st : ClabGenerator.LinkState)
    (f t : String) (fiOpt tiOpt : Option String) (hg : P1Inv g1) (h : P2Inv g1 st) :
    P2Inv g1 (ClabGenerator._resolve_conn st f t fiOpt tiOpt).1 := by
  simp only [ClabGenerator._resolve_conn]
  by_cases h1 : truthy fiOpt = true
  · by_cases h2 : truthy tiOpt = true
    · simp only [if_pos h1, if_pos h2]
      exact register_explicit_P2 _ _ _ _ (register_explicit_P2 _ _ _ _ h)
    · simp only [if_pos h1, if_neg h2]
      exact register_explicit_P2 _ _ _ _ (next_iface_P2 _ _ _ hg h)
  · by_cases h2 : truthy tiOpt = true
    · simp only [if_pos h2, if_neg h1]
      exact register_explicit_P2 _ _ _ _ (next_iface_P2 _ _ _ hg h)
    · simp only [if_neg h1, if_neg h2]
      exact next_iface_P2 _ _ _ hg (next_iface_P2 _ _ _ hg h)

theorem add_link_P2 (g1 : ClabGenerator.GenState) (env : ClabGenerator.Env)
    (st : ClabGenerator.LinkState) (conn : ClabGenerator.Connection)
    (hg : P1Inv g1) (h : P2Inv g1 st) :
    P2Inv g1 (ClabGenerator._add_link env st conn) := by
  simp only [ClabGenerator._add_link]
  rcases hf : ClabGenerator._resolve_endpoint env (pyOrOpt conn.fromContainer conn.from_) with
    - | f
  · exact h
  · rcases ht : ClabGenerator._resolve_endpoint env (pyOrOpt conn.toContainer conn.to_) with
      - | t
    · exact h
    · dsimp only
      by_cases hmem : (getKey env.container_info f).isSome = true ∧
        (getKey env.container_info t).isSome = true
      · rw [if_pos hmem]
        exact resolve_conn_P2 g1 st f t conn.fromInterface conn.toInterface hg h
      · rw [if_neg hmem]
        exact h

theorem pass2_P2 (env : ClabGenerator.Env) (t : ClabGenerator.TopologyData)
    (g1 : ClabGenerator.GenState) (hg : P1Inv g1) : P2Inv g1 (pass2 env t g1) := by
  have main : ∀ (conns : List ClabGenerator.Connection) (st : ClabGenerator.LinkState),
      P2Inv g1 st → P2Inv g1 (conns.foldl (ClabGenerator._add_link env) st) := by
    intro conns
    induction conns with
    | nil =>
      intro st h
      exact h
    | cons c cs ih =>
      intro st h
      exact ih _ (add_link_P2 g1 env st c hg h)
  refine main (allConnections t) (initLinkState g1) ?_
  exact ⟨fun cid => le_refl _, by simp [ClabGenerator.initLinkState]⟩

/-- C6.  No interface name handed out by the compiler's auto-assignment for
a container ever equals an interface name explicitly claimed (pass 1) by any
connection for that same container. -/
theorem C6_auto_no_collision (t : ClabGenerator.TopologyData) (cid ifc : String)
    (ha : (cid, ifc) ∈ (generateCore t).auto_log) :
    ifc ∉ lookupD (pass1Of t).container_ifaces cid [] := by
  have h2 := pass2_P2 (envOf t) t (pass1Of t) (pass1_inv (envOf t) t)
  exact h2.2 (cid, ifc) ha

/-- C6 witness: in `c6Topo` the explicit claim `eth5` on R1 forces R1's
auto-assigned interface to `eth6`, which indeed avoids the claimed set. -/
theorem C6_auto_no_collision_witness :
    ("R1", "eth6") ∈ (generateCore c6Topo).auto_log ∧
    "eth6" ∉ lookupD (pass1Of c6Topo).container_ifaces "R1" [] :=
  ⟨by decide, C6_auto_no_collision c6Topo "R1" "eth6" (by decide)⟩

end AE3GIS
